import Mathlib

/-!
Shallow embedding of the novelWriter pipeline orchestration code
(src/app/services/pipeline.py, src/app/crud.py, src/app/services/checks.py,
src/app/services/extraction.py, src/app/main.py) and proofs about it.

Conventions of the embedding:
* JSON payloads (`input_jsonb` / `output_jsonb`) are association lists of
  `String × Val`; Python dicts have unique keys, which every constructor in
  the source maintains, so first-match lookup is dict lookup.
* Python floats are modelled as exact rationals (`ℚ`); the constants that
  appear in the source (0.7, 0.95, 0.03, ...) are exact decimals, and no
  claim in this development depends on IEEE rounding.
* Integer-valued dict fields (`current_attempt`, `max_attempts`) are read
  with a default; the source would raise `TypeError` if a non-integer value
  reached the comparison or the increment, and every writer in the system
  stores integers there, so the embedding returns the default in that
  (unreachable) case.
-/

/-- JSON-like values stored in payload dictionaries. -/
inductive Val where
  | none
  | bool (b : Bool)
  | int (i : Int)
  | float (q : ℚ)
  | str (s : String)
  | list (vs : List Val)
  | obj (kvs : List (String × Val))

/-- A JSON object / Python dict: association list with unique keys. -/
abbrev Payload := List (String × Val)

/-- Dict lookup: `d.get(k)` returning `Option`. -/
def pget : Payload → String → Option Val
  | [], _ => Option.none
  | (k', v) :: rest, k => if k' = k then some v else pget rest k

/-- Dict lookup with default: `d.get(k, dflt)`. -/
def getD (p : Payload) (k : String) (dflt : Val) : Val :=
  (pget p k).getD dflt

/-- Dict update `d[k] = v`: replace the first binding of `k`, else append. -/
def setKey : Payload → String → Val → Payload
  | [], k, v => [(k, v)]
  | (k', v') :: rest, k, v =>
      if k' = k then (k, v) :: rest else (k', v') :: setKey rest k v

/-- Python truthiness, as used by `if all_passed:`. -/
def pyTruthy : Val → Bool
  | Val.none => false
  | Val.bool b => b
  | Val.int i => i ≠ 0
  | Val.float q => q ≠ 0
  | Val.str s => s ≠ ""
  | Val.list vs => !vs.isEmpty
  | Val.obj kvs => !kvs.isEmpty

/-- Read an integer field with a default, as in `d.get(k, n)` followed by
integer arithmetic.  A present non-integer value would raise `TypeError` in
the source; the system only ever stores integers in the fields read this
way. -/
def getIntD (p : Payload) (k : String) (dflt : Int) : Int :=
  match pget p k with
  | some (Val.int i) => i
  | _ => dflt

/-- Integer increment of a payload value, as in
`next_input.get("current_attempt", 0) + 1` (the value is always an integer
in the system; a non-integer would raise `TypeError` in the source). -/
def pyAddOne : Val → Val
  | Val.int i => Val.int (i + 1)
  | v => v

/-- Pipeline task types (class `TaskType` in pipeline.py). -/
inductive TaskType where
  | PLAN_SCENE
  | DRAFT_SCENE
  | EXTRACT_FACTS
  | RUN_CHECKS
  | REVISE
  | COMMIT
deriving DecidableEq

/-- Iteration statuses (class `IterationStatus` in pipeline.py). -/
inductive IterationStatus where
  | pending
  | running
  | passed
  | failed
deriving DecidableEq

/-- The static state-machine transition table `NEXT_TASK` in pipeline.py.
`RUN_CHECKS` branches (COMMIT if passed, REVISE if failed) and `COMMIT` is
terminal, so neither has an entry. -/
def NEXT_TASK : TaskType → Option TaskType
  | TaskType.PLAN_SCENE => some TaskType.DRAFT_SCENE
  | TaskType.DRAFT_SCENE => some TaskType.EXTRACT_FACTS
  | TaskType.EXTRACT_FACTS => some TaskType.RUN_CHECKS
  | TaskType.REVISE => some TaskType.EXTRACT_FACTS
  | _ => Option.none

/-- Carry one whitelisted key from the completed task's output into the next
input, mirroring `if "k" in output_data: next_input["k"] = output_data["k"]`. -/
def carryKey (next_input output_data : Payload) (k : String) : Payload :=
  match pget output_data k with
  | some v => setKey next_input k v
  | Option.none => next_input

/-- The next task's input before the REVISE increment (pipeline.py lines
211-226): the three iteration-scoped fields from the completed task's input
plus the whitelisted carry-over keys present in its output. -/
def nextInputBase (input_data output_data : Payload) : Payload :=
  let next_input : Payload :=
    [("scene_id", (pget input_data "scene_id").getD Val.none),
     ("max_attempts", getD input_data "max_attempts" (Val.int 3)),
     ("current_attempt", getD input_data "current_attempt" (Val.int 0))]
  let next_input := carryKey next_input output_data "draft_id"
  let next_input := carryKey next_input output_data "plan"
  let next_input := carryKey next_input output_data "facts"
  carryKey next_input output_data "findings"

/-- The input built for the next task in `advance_state_machine`
(pipeline.py lines 211-230): the base fields, with the attempt counter
incremented when the next task is REVISE. -/
def buildNextInput (input_data output_data : Payload) (next_task_type : TaskType) : Payload :=
  if next_task_type = TaskType.REVISE then
    setKey (nextInputBase input_data output_data) "current_attempt"
      (pyAddOne (getD (nextInputBase input_data output_data) "current_attempt" (Val.int 0)))
  else
    nextInputBase input_data output_data

/-- Outcome of `advance_state_machine`: create and enqueue a next task,
update the iteration status to a terminal value and return, or return with
no effect. -/
inductive AdvanceResult where
  | createTask (t : TaskType) (input : Payload)
  | finishIteration (s : IterationStatus)
  | noop

/-- The decision core of `advance_state_machine` (pipeline.py lines
169-245), as a function of the completed task's type, input and output. -/
def advance_state_machine (task_type : TaskType) (input_data output_data : Payload) :
    AdvanceResult :=
  if task_type = TaskType.RUN_CHECKS then
    let all_passed := pyTruthy (getD output_data "all_passed" (Val.bool false))
    let current_attempt := getIntD input_data "current_attempt" 0
    let max_attempts := getIntD input_data "max_attempts" 3
    if all_passed then
      AdvanceResult.createTask TaskType.COMMIT
        (buildNextInput input_data output_data TaskType.COMMIT)
    else if current_attempt ≥ max_attempts then
      AdvanceResult.finishIteration IterationStatus.failed
    else
      AdvanceResult.createTask TaskType.REVISE
        (buildNextInput input_data output_data TaskType.REVISE)
  else if task_type = TaskType.COMMIT then
    AdvanceResult.finishIteration IterationStatus.passed
  else
    match NEXT_TASK task_type with
    | some t => AdvanceResult.createTask t (buildNextInput input_data output_data t)
    | Option.none => AdvanceResult.noop

/-- A handler oracle: the output each step handler produces from its input,
for runs in which every handler completes successfully. -/
abbrev Oracle := TaskType → Payload → Payload

/-- The task-level trace of one iteration: starting from the current pending
task, repeatedly complete it (producing the oracle's output) and advance the
state machine; collect the tasks created after the starting one together with
the final iteration status.  `Option.none` means the fuel ran out.  A `noop`
advance leaves the iteration status at running (the status set by
`start_iteration`). -/
def runTrace (oracle : Oracle) : Nat → TaskType → Payload →
    Option (List (TaskType × Payload) × IterationStatus)
  | 0, _, _ => Option.none
  | fuel + 1, t, inp =>
    match advance_state_machine t inp (oracle t inp) with
    | AdvanceResult.createTask t2 inp2 =>
      match runTrace oracle fuel t2 inp2 with
      | some (rest, s) => some ((t2, inp2) :: rest, s)
      | Option.none => Option.none
    | AdvanceResult.finishIteration s => some ([], s)
    | AdvanceResult.noop => some ([], IterationStatus.running)

/-- The input of the first task, as created by `start_iteration`
(pipeline.py lines 89-98). -/
def initInput (scene_id max_attempts : Int) : Payload :=
  [("scene_id", Val.int scene_id),
   ("max_attempts", Val.int max_attempts),
   ("current_attempt", Val.int 0)]

/-- Number of tasks of a given type in a trace. -/
def countTasks (l : List (TaskType × Payload)) (t : TaskType) : Nat :=
  (l.filter (fun x => x.1 = t)).length

/-- Input of the last task of a given type in a trace, if any. -/
def lastInputOf (t : TaskType) : List (TaskType × Payload) → Option Payload
  | [] => Option.none
  | (t', p) :: rest =>
    match lastInputOf t rest with
    | some q => some q
    | Option.none => if t' = t then some p else Option.none

/-- Oracle used to witness hypotheses about passing check runs. -/
def oraclePass : Oracle := fun t _ =>
  if t = TaskType.RUN_CHECKS then [("all_passed", Val.bool true)] else []

/-- Oracle used to witness hypotheses about failing check runs. -/
def oracleFail : Oracle := fun t _ =>
  if t = TaskType.RUN_CHECKS then [("all_passed", Val.bool false)] else []


/-! ### Record store model (models.py / crud.py)

The relational store is modelled as lists of records; autoincrement primary
keys are modelled as one more than the maximum existing id.  The task queue
is the list of enqueued task ids. -/

/-- Task statuses, as stored in the `status` column of `task`. -/
inductive TaskStatus where
  | pending
  | running
  | completed
  | failed
deriving DecidableEq

structure SceneRec where
  id : Int
  project_id : Int
  card_jsonb : Payload

structure DraftRec where
  id : Int
  scene_id : Int
  version : Int
  text : String
deriving DecidableEq

structure IterationRec where
  id : Int
  scene_id : Int
  iteration_no : Int
  status : IterationStatus
deriving DecidableEq

structure TaskRec where
  id : Int
  iteration_id : Int
  task_type : TaskType
  status : TaskStatus
  input_jsonb : Payload
  output_jsonb : Payload
  attempts : Int
  locked : Bool

structure CheckRunRec where
  iteration_id : Int
  draft_id : Int
  check_type : String
  passed : Bool
  findings_jsonb : List Payload

structure FactRec where
  id : Int
  source_draft_id : Int
  data : Payload

structure ConstraintRec where
  id : Int
  project_id : Int
  constraint_type : String
  rule_jsonb : Payload
  severity : String

structure StyleBibleRec where
  project_id : Int
  version : Int
  content_jsonb : Payload

/-- The record store together with the task queue. -/
structure St where
  scenes : List SceneRec
  drafts : List DraftRec
  iterations : List IterationRec
  tasks : List TaskRec
  check_runs : List CheckRunRec
  facts : List FactRec
  constraints : List ConstraintRec
  style_bibles : List StyleBibleRec
  queue : List Int

def emptySt : St :=
  { scenes := [], drafts := [], iterations := [], tasks := [], check_runs := [],
    facts := [], constraints := [], style_bibles := [], queue := [] }

/-- Fresh autoincrement id: one more than the maximum existing id. -/
def freshId (ids : List Int) : Int := ids.foldl max 0 + 1

def get_scene (st : St) (scene_id : Int) : Option SceneRec :=
  st.scenes.find? (fun s => s.id = scene_id)

def get_draft (st : St) (draft_id : Int) : Option DraftRec :=
  st.drafts.find? (fun d => d.id = draft_id)

def get_iteration (st : St) (iteration_id : Int) : Option IterationRec :=
  st.iterations.find? (fun it => it.id = iteration_id)

def get_task (st : St) (task_id : Int) : Option TaskRec :=
  st.tasks.find? (fun t => t.id = task_id)

def get_constraints (st : St) (project_id : Int) : List ConstraintRec :=
  st.constraints.filter (fun c => c.project_id = project_id)

/-- Accumulator for `SELECT max(...)`: `Option.none` on an empty set. -/
def omax (acc : Option Int) (v : Int) : Option Int :=
  match acc with
  | Option.none => some v
  | some m => some (max m v)

/-- `SELECT max(version) FROM draft WHERE scene_id = :scene_id` (crud.py
lines 205-209). -/
def maxDraftVersion (drafts : List DraftRec) (scene_id : Int) : Option Int :=
  ((drafts.filter (fun d => d.scene_id = scene_id)).map
    (fun d => d.version)).foldl omax Option.none

/-- `crud.create_draft` (crud.py lines 201-220): version is the current
maximum version for the scene (or 0 if none) plus one, and the new row is
appended; the Draft table has no update and no delete operation. -/
def create_draft (st : St) (scene_id : Int) (text : String) : St × DraftRec :=
  let max_version := maxDraftVersion st.drafts scene_id
  let next_version := max_version.getD 0 + 1
  let d : DraftRec :=
    { id := freshId (st.drafts.map (fun x => x.id)), scene_id := scene_id,
      version := next_version, text := text }
  ({ st with drafts := st.drafts ++ [d] }, d)

/-- `crud.create_iteration` (crud.py lines 253-270). -/
def create_iteration (st : St) (scene_id : Int) : St × IterationRec :=
  let max_iteration :=
    ((st.iterations.filter (fun it => it.scene_id = scene_id)).map
      (fun it => it.iteration_no)).foldl omax Option.none
  let next_iteration := max_iteration.getD 0 + 1
  let it : IterationRec :=
    { id := freshId (st.iterations.map (fun x => x.id)), scene_id := scene_id,
      iteration_no := next_iteration, status := IterationStatus.pending }
  ({ st with iterations := st.iterations ++ [it] }, it)

/-- `crud.update_iteration_status` (crud.py lines 277-285); a missing
iteration is a no-op, as in the source. -/
def update_iteration_status (st : St) (iteration_id : Int) (status : IterationStatus) : St :=
  let updated := st.iterations.map
    (fun it => if it.id = iteration_id then { it with status := status } else it)
  { st with iterations := updated }

/-- `crud.create_task` (crud.py lines 292-307). -/
def create_task (st : St) (iteration_id : Int) (task_type : TaskType)
    (input_jsonb : Payload) : St × TaskRec :=
  let t : TaskRec :=
    { id := freshId (st.tasks.map (fun x => x.id)), iteration_id := iteration_id,
      task_type := task_type, status := TaskStatus.pending,
      input_jsonb := input_jsonb, output_jsonb := [], attempts := 0, locked := false }
  ({ st with tasks := st.tasks ++ [t] }, t)

/-- In-place update of one task row, as done by the dispatcher through the
ORM session. -/
def setTask (st : St) (task_id : Int) (f : TaskRec -> TaskRec) : St :=
  let updated := st.tasks.map (fun t => if t.id = task_id then f t else t)
  { st with tasks := updated }

/-- `crud.create_check_run` (crud.py lines 350-368). -/
def create_check_run (st : St) (iteration_id draft_id : Int) (check_type : String)
    (passed : Bool) (findings_jsonb : List Payload) : St :=
  let cr : CheckRunRec :=
    { iteration_id := iteration_id, draft_id := draft_id, check_type := check_type,
      passed := passed, findings_jsonb := findings_jsonb }
  { st with check_runs := st.check_runs ++ [cr] }

/-- `crud.create_fact` (crud.py lines 375-387). -/
def create_fact (st : St) (source_draft_id : Int) (data : Payload) : St × FactRec :=
  let f : FactRec :=
    { id := freshId (st.facts.map (fun x => x.id)),
      source_draft_id := source_draft_id, data := data }
  ({ st with facts := st.facts ++ [f] }, f)

/-! ### Python string and value helpers used by the handlers and checks -/

/-- Approximation of Python `str(v)`, used only inside human-readable
message strings (f-string interpolation, including the `:.2f` float format);
no claim depends on message text. -/
def pyStr : Val → String
  | Val.none => "None"
  | Val.bool true => "True"
  | Val.bool false => "False"
  | Val.int i => toString i
  | Val.float q => toString q
  | Val.str s => s
  | Val.list _ => "[...]"
  | Val.obj _ => "\x7b...\x7d"

/-- Attribute read on a JSON value that is a dict: `v.get(k, dflt)`.  A
non-dict would raise in the source. -/
def vget (v : Val) (k : String) (dflt : Val) : Val :=
  match v with
  | Val.obj kvs => getD kvs k dflt
  | _ => dflt

/-- The element list of a JSON value expected to be a list (a non-list
would raise in the source). -/
def valList : Val → List Val
  | Val.list vs => vs
  | _ => []

/-- The field list of a JSON value expected to be a dict (a non-dict would
raise in the source). -/
def valObj : Val → Payload
  | Val.obj kvs => kvs
  | _ => []

/-- Python `s.split()`: split on whitespace runs, dropping empty pieces
(Python's whitespace set is approximated by `Char.isWhitespace`). -/
def pySplitWs (s : String) : List String :=
  (s.split Char.isWhitespace).filter (fun w => w ≠ "")

/-- Worker for `pyCount` with explicit fuel (the remaining length bound). -/
def countOccGo (sub : List Char) : Nat → List Char → Nat
  | _, [] => 0
  | 0, _ => 0
  | fuel + 1, c :: rest =>
    if sub.isPrefixOf (c :: rest) then
      1 + countOccGo sub fuel ((c :: rest).drop sub.length)
    else
      countOccGo sub fuel rest

/-- Python `s.count(sub)`: non-overlapping occurrences, scanning left to
right; an empty pattern counts `len(s) + 1` as in Python. -/
def pyCount (s sub : String) : Nat :=
  if sub.data.isEmpty then s.data.length + 1
  else countOccGo sub.data s.data.length s.data

/-- Worker for `strIn`. -/
def listIn (sub : List Char) : List Char → Bool
  | [] => sub.isEmpty
  | c :: rest => sub.isPrefixOf (c :: rest) || listIn sub rest

/-- Python `sub in s` (substring containment). -/
def strIn (sub s : String) : Bool := listIn sub.data s.data

/-- Python `==` on JSON scalars, with numeric cross-type equality
(`True == 1`, `1 == 1.0`).  Container comparisons return `false`: the only
container comparison in the source is the `object_jsonb` comparison in the
previous-facts loop of `run_continuity_check`, and the pipeline always calls
it with `previous_facts = []`, so that loop never runs in the system. -/
def pyEq : Val → Val → Bool
  | Val.none, Val.none => true
  | Val.bool a, Val.bool b => a = b
  | Val.bool a, Val.int b => (if a then (1 : Int) else 0) = b
  | Val.int a, Val.bool b => a = (if b then (1 : Int) else 0)
  | Val.int a, Val.int b => a = b
  | Val.float a, Val.float b => a = b
  | Val.int a, Val.float b => (a : ℚ) = b
  | Val.float a, Val.int b => a = (b : ℚ)
  | Val.bool a, Val.float b => (if a then (1 : ℚ) else 0) = b
  | Val.float a, Val.bool b => a = (if b then (1 : ℚ) else 0)
  | Val.str a, Val.str b => a = b
  | _, _ => false

/-- Python `v == "s"` for a string literal. -/
def pyEqStr (v : Val) (s : String) : Bool :=
  match v with
  | Val.str s2 => s2 = s
  | _ => false

/-- Python `v < q` for a numeric literal (a non-number raises in the
source). -/
def valLtQ (v : Val) (q : ℚ) : Bool :=
  match v with
  | Val.int i => (i : ℚ) < q
  | Val.float r => r < q
  | Val.bool b => (if b then (1 : ℚ) else 0) < q
  | _ => false


/-! ### Stub LLM functions (extraction.py)

`hashlib.md5(...).hexdigest()[:8]` is an external library call; it is an
explicit parameter `md5hex8` of the functions that use it (no claim depends
on its value).  Apostrophes and the em-dash in the literal prose of the
stubs are elided (ASCII adjustment); no claim depends on the text. -/

/-- `extraction.extract_facts` (extraction.py lines 9-52). -/
def extract_facts (md5hex8 : String → String) (draft_text : String) : List Payload :=
  let text_hash := md5hex8 draft_text
  [[("fact_type", Val.str "character_trait"),
    ("subject_type", Val.str "character"),
    ("subject_id", Val.int 1),
    ("predicate", Val.str "appears_in_scene"),
    ("object_jsonb", Val.obj [("action", Val.str "speaks"), ("hash", Val.str text_hash)]),
    ("confidence", Val.float (95 / 100))],
   [("fact_type", Val.str "location_detail"),
    ("subject_type", Val.str "location"),
    ("subject_id", Val.none),
    ("predicate", Val.str "setting"),
    ("object_jsonb", Val.obj [("description", Val.str "interior"), ("hash", Val.str text_hash)]),
    ("confidence", Val.float (85 / 100))],
   [("fact_type", Val.str "event"),
    ("subject_type", Val.str "scene"),
    ("subject_id", Val.none),
    ("predicate", Val.str "contains_event"),
    ("object_jsonb", Val.obj [("event_type", Val.str "dialogue"), ("hash", Val.str text_hash)]),
    ("confidence", Val.float (90 / 100))]]

/-- `extraction.summarize_scene` (extraction.py lines 55-71). -/
def summarize_scene (md5hex8 : String → String) (draft_text : String) : String :=
  let word_count := (pySplitWs draft_text).length
  let text_hash := md5hex8 draft_text
  "Scene summary (" ++ toString word_count ++
    " words): A scene involving character interactions and plot development. [Hash: " ++
    text_hash ++ "]"

/-- `extraction.generate_scene_plan` (extraction.py lines 74-98). -/
def generate_scene_plan (scene_card : Payload) : Payload :=
  [("beats", Val.list
      [Val.obj [("order", Val.int 1),
                ("description", Val.str "Opening hook - establish setting and tension")],
       Val.obj [("order", Val.int 2),
                ("description", Val.str "Character introduction and dialogue")],
       Val.obj [("order", Val.int 3),
                ("description", Val.str "Rising action - conflict emerges")],
       Val.obj [("order", Val.int 4), ("description", Val.str "Climactic moment")],
       Val.obj [("order", Val.int 5),
                ("description", Val.str "Resolution and transition")]]),
   ("tone", getD scene_card "tone" (Val.str "dramatic")),
   ("pacing", Val.str "medium"),
   ("word_target", Val.int 1500)]

/-- The fixed prose between the title line and the beats line of the
generated draft (extraction.py lines 117-131). -/
def draftBody : String :=
  "\n\nThe scene opens with a sense of anticipation hanging in the air. Characters move through the space with purpose, their intentions not yet fully revealed.\n\n\"I didnt expect to find you here,\" said the first character, voice carrying a weight of unspoken history.\n\n\"Expectations rarely align with reality,\" came the measured response. \"We both know that better than most.\"\n\nThe dialogue continued, each exchange layered with subtext. The setting, described in vivid detail, served as a silent witness to the unfolding drama.\n\nAs tensions mounted, a moment of clarity emerged. The characters faced a choice, one that would echo through the chapters to come.\n\nThe scene concluded with a lingering question, a thread left deliberately loose for future exploration.\n\n[END DRAFT - Generated from plan with "

/-- `extraction.generate_draft` (extraction.py lines 101-131). -/
def generate_draft (scene_card plan : Payload) : String :=
  let title := pyStr (getD scene_card "title" (Val.str "Untitled Scene"))
  let beats := valList (getD plan "beats" (Val.list []))
  "[DRAFT - " ++ title ++ "]" ++ draftBody ++ toString beats.length ++ " beats]"

/-- `extraction.revise_draft` (extraction.py lines 134-168). -/
def revise_draft (current_draft : String) (check_findings : List Val) : String :=
  let finding_count := check_findings.length
  let revision_note :=
    "\n\n[REVISION NOTE]\nAddressed " ++ toString finding_count ++
      " finding(s) from continuity and style checks.\nRevisions applied:\n"
  let lines := (List.enumFrom 1 check_findings).map (fun iv =>
    "  " ++ toString iv.1 ++ ". Corrected: " ++
      pyStr (vget iv.2 "issue" (Val.str "unspecified issue")) ++ "\n")
  let revision_note := revision_note ++ String.join lines ++ "[END REVISION NOTE]"
  current_draft ++ revision_note

/-! ### Checks (checks.py) -/

/-- `checks.CheckResult` (checks.py lines 9-14). -/
structure CheckResult where
  check_type : String
  passed : Bool
  findings : List Payload

/-- The common tail of both checks (checks.py lines 91-98 and 191-198):
the check passes exactly when no finding has severity `"error"`. -/
def mkCheckResult (check_type : String) (findings : List Payload) : CheckResult :=
  let has_errors := findings.any (fun f => pyEqStr (getD f "severity" Val.none) "error")
  { check_type := check_type, passed := !has_errors, findings := findings }

/-- The low-confidence finding of `run_continuity_check` (checks.py lines
42-50). -/
def lowConfFinding (fact : Val) : Payload :=
  [("severity", Val.str "warning"),
   ("issue", Val.str ("Low confidence fact (" ++
     pyStr (vget fact "confidence" (Val.float 1)) ++ "): " ++
     pyStr (vget fact "predicate" Val.none))),
   ("fact_type", vget fact "fact_type" Val.none),
   ("suggestion", Val.str "Consider clarifying or removing ambiguous information")]

/-- `checks.run_continuity_check` (checks.py lines 17-98): low-confidence
warnings, continuity-constraint findings, contradiction findings; the check
passes exactly when no finding has severity `"error"`. -/
def run_continuity_check (facts constraints previous_facts : List Val) : CheckResult :=
  let findings1 : List Payload :=
    (facts.filter (fun f => valLtQ (vget f "confidence" (Val.float 1)) (7 / 10))).map
      lowConfFinding
  let findings2 : List Payload := constraints.filterMap (fun c =>
    if pyEqStr (vget c "constraint_type" Val.none) "continuity" then
      let rule := vget c "rule_jsonb" (Val.obj [])
      if pyEqStr (vget rule "type" Val.none) "character_must_appear" then
        let char_id := vget rule "character_id" Val.none
        let char_facts := facts.filter (fun f =>
          pyEqStr (vget f "subject_type" Val.none) "character" &&
          pyEq (vget f "subject_id" Val.none) char_id)
        if char_facts.isEmpty then
          some [("severity", vget c "severity" (Val.str "error")),
                ("issue", Val.str ("Required character " ++ pyStr char_id ++
                  " does not appear in scene")),
                ("constraint_id", vget c "id" Val.none),
                ("suggestion", Val.str "Add character to the scene")]
        else Option.none
      else Option.none
    else Option.none)
  let findings3 : List Payload := facts.flatMap (fun f =>
    previous_facts.filterMap (fun pf =>
      if pyEq (vget f "subject_type" Val.none) (vget pf "subject_type" Val.none) &&
         pyEq (vget f "subject_id" Val.none) (vget pf "subject_id" Val.none) &&
         pyEq (vget f "predicate" Val.none) (vget pf "predicate" Val.none) then
        if !pyEq (vget f "object_jsonb" Val.none) (vget pf "object_jsonb" Val.none) then
          some [("severity", Val.str "error"),
                ("issue", Val.str ("Potential contradiction: " ++
                  pyStr (vget f "predicate" Val.none) ++ " differs from previous fact")),
                ("current", vget f "object_jsonb" Val.none),
                ("previous", vget pf "object_jsonb" Val.none),
                ("suggestion", Val.str "Reconcile the contradiction or justify the change")]
        else Option.none
      else Option.none))
  mkCheckResult "continuity" (findings1 ++ findings2 ++ findings3)

/-- `checks.run_style_check` (checks.py lines 101-198): word-count,
passive-voice, adverb, forbidden-word and POV findings; the check passes
exactly when no finding has severity `"error"` (only forbidden words are
errors). -/
def run_style_check (draft_text : String) (style_bible : Payload) : CheckResult :=
  let word_count := (pySplitWs draft_text).length
  let min_words := getIntD style_bible "min_word_count" 100
  let findings1 : List Payload :=
    if (word_count : Int) < min_words then
      [[("severity", Val.str "warning"),
        ("issue", Val.str ("Draft is too short (" ++ toString word_count ++
          " words, minimum " ++ toString min_words ++ ")")),
        ("suggestion", Val.str ("Expand the draft to at least " ++
          toString min_words ++ " words"))]]
    else []
  let max_words := getIntD style_bible "max_word_count" 5000
  let findings2 : List Payload :=
    if (word_count : Int) > max_words then
      [[("severity", Val.str "warning"),
        ("issue", Val.str ("Draft is too long (" ++ toString word_count ++
          " words, maximum " ++ toString max_words ++ ")")),
        ("suggestion", Val.str ("Consider splitting the scene or trimming to " ++
          toString max_words ++ " words"))]]
    else []
  let lower_text := draft_text.toLower
  let passive_count := pyCount lower_text "was being" + pyCount lower_text "were being" +
    pyCount lower_text "had been" + pyCount lower_text "has been"
  let findings3 : List Payload :=
    if passive_count > 5 then
      [[("severity", Val.str "info"),
        ("issue", Val.str ("High passive voice usage (" ++ toString passive_count ++
          " instances detected)")),
        ("suggestion", Val.str "Consider using more active voice for stronger prose")]]
    else []
  let words := pySplitWs draft_text
  let adverbs := words.filter (fun w => w.toLower.endsWith "ly" && w.length > 4)
  let adverb_ratio : ℚ := (adverbs.length : ℚ) / (max words.length 1 : ℚ)
  let findings4 : List Payload :=
    if adverb_ratio > 3 / 100 then
      [[("severity", Val.str "info"),
        ("issue", Val.str ("Consider reducing adverb usage (" ++
          toString adverbs.length ++ " adverbs in " ++ toString words.length ++ " words)")),
        ("suggestion", Val.str "Replace adverbs with stronger verbs where possible")]]
    else []
  let forbidden := valList (getD style_bible "forbidden_words" (Val.list []))
  let findings5 : List Payload := forbidden.filterMap (fun w =>
    match w with
    | Val.str word =>
      if strIn word.toLower lower_text then
        some [("severity", Val.str "error"),
              ("issue", Val.str ("Forbidden word/phrase found: " ++ word)),
              ("suggestion", Val.str "Remove or replace this word/phrase")]
      else Option.none
    | _ => Option.none)
  let pov := getD style_bible "pov" (Val.str "third")
  let findings6 : List Payload :=
    if pyEqStr pov "first" then
      [" he said", " she said", " they said"].filterMap (fun ind =>
        if strIn ind lower_text then
          some [("severity", Val.str "warning"),
                ("issue", Val.str ("Possible POV break: " ++ ind.trim ++
                  " in first-person narrative")),
                ("suggestion", Val.str "Ensure consistent first-person POV")]
        else Option.none)
    else []
  mkCheckResult "style" (findings1 ++ findings2 ++ findings3 ++ findings4 ++ findings5 ++ findings6)

/-- `checks.run_all_checks` (checks.py lines 201-224): always a continuity
check followed by a style check. -/
def run_all_checks (draft_text : String) (facts constraints : List Val)
    (style_bible : Payload) (previous_facts : List Val) : List CheckResult :=
  [run_continuity_check facts constraints previous_facts,
   run_style_check draft_text style_bible]

/-! ### Task handlers (pipeline.py lines 252-448)

Record lookups by a payload value mirror the SQL `WHERE id = :v` filter: a
non-integer value matches no row (the subsequent "not found" branch raises,
as the source does). -/

/-- A step handler: store and task in, new store and output payload out, or
a raised error. -/
abbrev Handler := St → TaskRec → Except String (St × Payload)

def lookupScene (st : St) (v : Val) : Option SceneRec :=
  match v with
  | Val.int i => get_scene st i
  | _ => Option.none

def lookupDraft (st : St) (v : Val) : Option DraftRec :=
  match v with
  | Val.int i => get_draft st i
  | _ => Option.none

/-- `handle_plan_scene` (pipeline.py lines 252-266). -/
def handle_plan_scene : Handler := fun st task =>
  let scene_id := getD task.input_jsonb "scene_id" Val.none
  match lookupScene st scene_id with
  | Option.none => Except.error ("Scene " ++ pyStr scene_id ++ " not found")
  | some scene =>
    let plan := generate_scene_plan scene.card_jsonb
    Except.ok (st, [("scene_id", scene_id), ("plan", Val.obj plan)])

/-- `handle_draft_scene` (pipeline.py lines 269-292): generates the draft
text and appends a new Draft row (append-only). -/
def handle_draft_scene : Handler := fun st task =>
  let scene_id := getD task.input_jsonb "scene_id" Val.none
  let plan := getD task.input_jsonb "plan" (Val.obj [])
  match scene_id with
  | Val.int i =>
    match get_scene st i with
    | Option.none => Except.error ("Scene " ++ pyStr scene_id ++ " not found")
    | some scene =>
      let draft_text := generate_draft scene.card_jsonb (valObj plan)
      let res := create_draft st i draft_text
      Except.ok (res.1, [("scene_id", scene_id), ("draft_id", Val.int res.2.id),
        ("version", Val.int res.2.version)])
  | _ => Except.error ("Scene " ++ pyStr scene_id ++ " not found")

/-- `handle_extract_facts` (pipeline.py lines 295-326). -/
def handle_extract_facts (md5hex8 : String → String) : Handler := fun st task =>
  let draft_id := getD task.input_jsonb "draft_id" Val.none
  match lookupDraft st draft_id with
  | Option.none => Except.error ("Draft " ++ pyStr draft_id ++ " not found")
  | some draft =>
    let fact_dicts := extract_facts md5hex8 draft.text
    let stepf := fun (acc : St × List Val) (fd : Payload) =>
      let res := create_fact acc.1 draft.id fd
      (res.1, acc.2 ++ [Val.obj (("id", Val.int res.2.id) :: fd)])
    let res := fact_dicts.foldl stepf (st, [])
    let summary := summarize_scene md5hex8 draft.text
    Except.ok (res.1, [("draft_id", draft_id), ("facts", Val.list res.2),
      ("summary", Val.str summary)])

/-- Python `max(style_bibles, key=lambda x: x.version)`: the first record
with the maximal version (versions are unique per project in the schema). -/
def latestBible : List StyleBibleRec → Option StyleBibleRec
  | [] => Option.none
  | b :: rest =>
    some (rest.foldl (fun acc x => if x.version > acc.version then x else acc) b)

/-- The latest style bible content for a project, defaulting to the empty
dict: `style_bible = {}` then `if scene.project.style_bibles: style_bible =
max(...).content_jsonb` (pipeline.py lines 354-357). -/
def styleBibleContent (bibles : List StyleBibleRec) : Payload :=
  match latestBible bibles with
  | some b => b.content_jsonb
  | Option.none => []

/-- `handle_run_checks` (pipeline.py lines 329-390): loads constraints and
the latest style bible, runs both checks, stores one CheckRun per result,
and reports `all_passed` as the conjunction of the per-check `passed`
flags. -/
def handle_run_checks : Handler := fun st task =>
  let scene_id := getD task.input_jsonb "scene_id" Val.none
  let draft_id := getD task.input_jsonb "draft_id" Val.none
  let facts := valList (getD task.input_jsonb "facts" (Val.list []))
  match lookupDraft st draft_id, lookupScene st scene_id with
  | some draft, some scene =>
    let constraints_models := get_constraints st scene.project_id
    let constraints : List Val := constraints_models.map (fun c => Val.obj
      [("id", Val.int c.id), ("constraint_type", Val.str c.constraint_type),
       ("rule_jsonb", Val.obj c.rule_jsonb), ("severity", Val.str c.severity)])
    let bibles := st.style_bibles.filter (fun b => b.project_id = scene.project_id)
    let style_bible : Payload := styleBibleContent bibles
    let check_results := run_all_checks draft.text facts constraints style_bible []
    let st2 := check_results.foldl (fun acc r =>
      create_check_run acc task.iteration_id draft.id r.check_type r.passed r.findings) st
    let all_passed := check_results.foldl (fun acc r => acc && r.passed) true
    let all_findings := check_results.foldl (fun acc r => acc ++ r.findings) ([] : List Payload)
    Except.ok (st2, [("draft_id", draft_id), ("all_passed", Val.bool all_passed),
      ("findings", Val.list (all_findings.map Val.obj)),
      ("check_count", Val.int check_results.length)])
  | _, _ => Except.error "Draft or scene not found"

/-- `handle_revise` (pipeline.py lines 393-419): revises the draft text and
appends a new Draft row (append-only); a non-integer scene id would fail the
insert in the source. -/
def handle_revise : Handler := fun st task =>
  let scene_id := getD task.input_jsonb "scene_id" Val.none
  let draft_id := getD task.input_jsonb "draft_id" Val.none
  let findings := valList (getD task.input_jsonb "findings" (Val.list []))
  match lookupDraft st draft_id with
  | Option.none => Except.error ("Draft " ++ pyStr draft_id ++ " not found")
  | some draft =>
    let revised_text := revise_draft draft.text findings
    match scene_id with
    | Val.int i =>
      let res := create_draft st i revised_text
      Except.ok (res.1, [("scene_id", scene_id), ("draft_id", Val.int res.2.id),
        ("version", Val.int res.2.version), ("previous_draft_id", draft_id)])
    | _ => Except.error "scene_id is not an integer"

/-- `handle_commit` (pipeline.py lines 422-437). -/
def handle_commit : Handler := fun st task =>
  Except.ok (st,
    [("scene_id", getD task.input_jsonb "scene_id" Val.none),
     ("draft_id", getD task.input_jsonb "draft_id" Val.none),
     ("committed", Val.bool true),
     ("message", Val.str "Draft committed successfully")])

/-- The `TASK_HANDLERS` dispatch table (pipeline.py lines 441-448). -/
def TASK_HANDLERS (md5hex8 : String → String) : TaskType → Handler
  | TaskType.PLAN_SCENE => handle_plan_scene
  | TaskType.DRAFT_SCENE => handle_draft_scene
  | TaskType.EXTRACT_FACTS => handle_extract_facts md5hex8
  | TaskType.RUN_CHECKS => handle_run_checks
  | TaskType.REVISE => handle_revise
  | TaskType.COMMIT => handle_commit

/-! ### Dispatcher and lifecycle (pipeline.py lines 62-245) -/

/-- The store effects of `advance_state_machine` (pipeline.py lines
169-245): create and enqueue the next task, or update the iteration status.
The source loads the iteration record but uses only its id, which equals
`completed_task.iteration_id` (a missing iteration would raise in the
source). -/
def advance_state_machine_store (st : St) (completed_task : TaskRec) : St :=
  match advance_state_machine completed_task.task_type completed_task.input_jsonb
      completed_task.output_jsonb with
  | AdvanceResult.createTask ty inp =>
    let res := create_task st completed_task.iteration_id ty inp
    { res.1 with queue := res.1.queue ++ [res.2.id] }
  | AdvanceResult.finishIteration s =>
    update_iteration_status st completed_task.iteration_id s
  | AdvanceResult.noop => st

/-- `process_task` (pipeline.py lines 114-166), parameterised by the
handler table: load the task (error if absent), mark it locked/running and
bump the delivery-attempt counter — there is no short-circuit for a task
that is already completed — run the handler; on success persist the output,
mark completed and advance the state machine; on failure persist the error
as output, mark failed and re-raise. -/
def process_task_with (handlers : TaskType → Handler) (st : St) (task_id : Int) :
    St × Except String Payload :=
  match get_task st task_id with
  | Option.none => (st, Except.error ("Task " ++ toString task_id ++ " not found"))
  | some task =>
    let st1 := setTask st task_id (fun t =>
      { t with locked := true, status := TaskStatus.running, attempts := t.attempts + 1 })
    let task1 : TaskRec :=
      { task with locked := true, status := TaskStatus.running, attempts := task.attempts + 1 }
    match handlers task.task_type st1 task1 with
    | Except.ok (st2, output) =>
      let st3 := setTask st2 task_id (fun t =>
        { t with output_jsonb := output, status := TaskStatus.completed })
      let st4 := advance_state_machine_store st3
        { task1 with output_jsonb := output, status := TaskStatus.completed }
      (st4, Except.ok output)
    | Except.error e =>
      let st2 := setTask st1 task_id (fun t =>
        { t with status := TaskStatus.failed, output_jsonb := [("error", Val.str e)] })
      (st2, Except.error e)

/-- `process_task` with the real handler table. -/
def process_task (md5hex8 : String → String) (st : St) (task_id : Int) :
    St × Except String Payload :=
  process_task_with (TASK_HANDLERS md5hex8) st task_id

/-- `start_iteration` (pipeline.py lines 62-111): verify the scene, create
the iteration, create the first PLAN_SCENE task, set the iteration status to
running — each record write committed separately — then enqueue.  `enqueue_ok`
models whether the enqueue call succeeds; when it fails the exception
propagates but the three record writes remain committed. -/
def start_iteration (st : St) (scene_id : Int) (max_attempts : Int) (enqueue_ok : Bool) :
    St × Except String Int :=
  match get_scene st scene_id with
  | Option.none => (st, Except.error ("Scene " ++ toString scene_id ++ " not found"))
  | some _ =>
    let res1 := create_iteration st scene_id
    let res2 := create_task res1.1 res1.2.id TaskType.PLAN_SCENE
      [("scene_id", Val.int scene_id), ("max_attempts", Val.int max_attempts),
       ("current_attempt", Val.int 0)]
    let st3 := update_iteration_status res2.1 res1.2.id IterationStatus.running
    if enqueue_ok then
      ({ st3 with queue := st3.queue ++ [res2.2.id] }, Except.ok res1.2.id)
    else
      (st3, Except.error "enqueue failed")

/-! ### API layer (main.py) -/

/-- HTTP-level errors of the FastAPI endpoints: 404, 400, and uncaught
exceptions (500). -/
inductive ApiError where
  | notFound (detail : String)
  | badRequest (detail : String)
  | internalError (detail : String)
deriving DecidableEq

/-- `run_pipeline` = `POST /pipeline/scenes/{scene_id}/run` (main.py lines
255-297): 404 if the scene or the supplied draft is missing, 400 if the
supplied draft belongs to another scene.  `if request.draft_id:` is Python
truthiness, so a draft id of 0 skips the validation.  On the validated path
the source calls `pipeline.start_iteration` with a `draft_id` keyword
argument that the function does not accept, so Python raises `TypeError`
before any record is written (the handler catches only `ValueError`), and
the request fails with an internal error leaving the store unchanged. -/
def run_pipeline (st : St) (scene_id : Int) (_req_max_attempts : Int)
    (req_draft_id : Option Int) : St × Except ApiError Int :=
  match get_scene st scene_id with
  | Option.none => (st, Except.error (ApiError.notFound "Scene not found"))
  | some _ =>
    let validation : Option ApiError :=
      match req_draft_id with
      | some did =>
        if did ≠ 0 then
          match get_draft st did with
          | Option.none => some (ApiError.notFound "Draft not found")
          | some draft =>
            if draft.scene_id ≠ scene_id then
              some (ApiError.badRequest "Draft does not belong to this scene")
            else Option.none
        else Option.none
      | Option.none => Option.none
    match validation with
    | some err => (st, Except.error err)
    | Option.none =>
      (st, Except.error (ApiError.internalError
        "TypeError: start_iteration() got an unexpected keyword argument draft_id"))

/-! ### Concrete states and parameters used by witnesses and
counterexamples -/

/-- Fixed instantiation of the hash parameter for concrete evaluations. -/
def md5Fixed : String → String := fun _ => "00000000"

def sceneOne : SceneRec := { id := 1, project_id := 1, card_jsonb := [] }

/-- The single draft row of `stDone`. -/
def draftOne : DraftRec := { id := 1, scene_id := 1, version := 1, text := "text" }

/-- The single (running) iteration row of `stDone`. -/
def iterOne : IterationRec :=
  { id := 1, scene_id := 1, iteration_no := 1, status := IterationStatus.running }

/-- The single, already completed DRAFT_SCENE task row of `stDone`. -/
def taskDone : TaskRec where
  id := 10
  iteration_id := 1
  task_type := TaskType.DRAFT_SCENE
  status := TaskStatus.completed
  input_jsonb := [("scene_id", Val.int 1), ("max_attempts", Val.int 3),
    ("current_attempt", Val.int 0), ("plan", Val.obj [])]
  output_jsonb := [("scene_id", Val.int 1), ("draft_id", Val.int 1), ("version", Val.int 1)]
  attempts := 1
  locked := true

/-- A store holding one scene, one draft of it, one running iteration and
one already completed DRAFT_SCENE task. -/
def stDone : St :=
  { emptySt with
    scenes := [sceneOne]
    drafts := [draftOne]
    iterations := [iterOne]
    tasks := [taskDone] }

/-- A store holding just one scene. -/
def stScene : St := { emptySt with scenes := [sceneOne] }

/-- A second scene. -/
def sceneTwo : SceneRec := { id := 2, project_id := 1, card_jsonb := [] }

/-- A draft belonging to the second scene. -/
def draftOfTwo : DraftRec := { id := 1, scene_id := 2, version := 1, text := "other" }

/-- A store with two scenes and one draft belonging to the second scene. -/
def stTwoScenes : St :=
  { emptySt with scenes := [sceneOne, sceneTwo], drafts := [draftOfTwo] }

/-- A handler table whose every handler raises. -/
def handlersFail : TaskType → Handler := fun _ => fun _ _ => Except.error "boom"

/-- A pending RUN_CHECKS task for the scene and draft of `stDone`. -/
def taskCheckW : TaskRec where
  id := 11
  iteration_id := 1
  task_type := TaskType.RUN_CHECKS
  status := TaskStatus.pending
  input_jsonb := [("scene_id", Val.int 1), ("draft_id", Val.int 1)]
  output_jsonb := []
  attempts := 0
  locked := false

/-! ### Spec-side definitions for the Draft version invariant -/

/-- The version numbers of a scene's drafts, in row order. -/
def versionsOf (st : St) (scene_id : Int) : List Int :=
  (st.drafts.filter (fun d => d.scene_id = scene_id)).map (fun d => d.version)

/-- The list `[1, 2, ..., k]`. -/
def ascRun (k : Nat) : List Int := (List.range k).map (fun i : Nat => (i : Int) + 1)

/-- Apply a sequence of draft-creation requests `(scene_id, text)`. -/
def applyCreates (ops : List (Int × String)) (st : St) : St :=
  ops.foldl (fun s op => (create_draft s op.1 op.2).1) st

section BasicLemmas

theorem pget_setKey_same (p : Payload) (k : String) (v : Val) :
    pget (setKey p k v) k = some v := by
  induction p with
  | nil => simp [setKey, pget]
  | cons hd tl ih =>
    obtain ⟨k', v'⟩ := hd
    by_cases h : k' = k <;> simp [setKey, h, pget, ih]

theorem pget_setKey_ne (p : Payload) (k k' : String) (v : Val) (h : k' ≠ k) :
    pget (setKey p k v) k' = pget p k' := by
  have h' : ¬(k = k') := fun hh => h hh.symm
  induction p with
  | nil => simp [setKey, pget, h']
  | cons hd tl ih =>
    obtain ⟨k0, v0⟩ := hd
    by_cases h1 : k0 = k
    · subst h1
      simp [setKey, pget, h']
    · simp [setKey, h1, pget, ih]

theorem pget_carryKey_ne (p o : Payload) (k k' : String) (h : k' ≠ k) :
    pget (carryKey p o k) k' = pget p k' := by
  unfold carryKey
  cases pget o k with
  | none => rfl
  | some v => exact pget_setKey_ne p k k' v h

theorem pget_carryKey_same (p o : Payload) (k : String) :
    pget (carryKey p o k) k =
      match pget o k with
      | some v => some v
      | Option.none => pget p k := by
  unfold carryKey
  cases pget o k with
  | none => rfl
  | some v => simp [pget_setKey_same]

theorem nextInputBase_scene_id (i o : Payload) :
    pget (nextInputBase i o) "scene_id" =
      some ((pget i "scene_id").getD Val.none) := by
  simp [nextInputBase, pget_carryKey_ne, pget]

theorem nextInputBase_max_attempts (i o : Payload) :
    pget (nextInputBase i o) "max_attempts" =
      some (getD i "max_attempts" (Val.int 3)) := by
  simp [nextInputBase, pget_carryKey_ne, pget]

theorem nextInputBase_attempt (i o : Payload) :
    pget (nextInputBase i o) "current_attempt" =
      some (getD i "current_attempt" (Val.int 0)) := by
  simp [nextInputBase, pget_carryKey_ne, pget]

/-- The `max_attempts` field of the next input is the completed task's
value (default 3), whatever the successor type. -/
theorem buildNextInput_max_attempts (i o : Payload) (t : TaskType) :
    pget (buildNextInput i o t) "max_attempts" =
      some (getD i "max_attempts" (Val.int 3)) := by
  unfold buildNextInput
  by_cases h : t = TaskType.REVISE <;>
    simp [h, pget_setKey_ne, nextInputBase_max_attempts]

/-- The `scene_id` field of the next input is the completed task's value
(default `None`), whatever the successor type. -/
theorem buildNextInput_scene_id (i o : Payload) (t : TaskType) :
    pget (buildNextInput i o t) "scene_id" =
      some ((pget i "scene_id").getD Val.none) := by
  unfold buildNextInput
  by_cases h : t = TaskType.REVISE <;>
    simp [h, pget_setKey_ne, nextInputBase_scene_id]

/-- For a non-REVISE successor the attempt counter is copied unchanged. -/
theorem buildNextInput_attempt_other (i o : Payload) (t : TaskType)
    (h : t ≠ TaskType.REVISE) :
    pget (buildNextInput i o t) "current_attempt" =
      some (getD i "current_attempt" (Val.int 0)) := by
  unfold buildNextInput
  simp [h, nextInputBase_attempt]

/-- For a REVISE successor the attempt counter is incremented. -/
theorem buildNextInput_attempt_revise (i o : Payload) :
    pget (buildNextInput i o TaskType.REVISE) "current_attempt" =
      some (pyAddOne (getD i "current_attempt" (Val.int 0))) := by
  unfold buildNextInput
  rw [if_pos rfl, pget_setKey_same, getD, nextInputBase_attempt]
  rfl

end BasicLemmas

section StepLemmas

theorem advance_plan (i o : Payload) :
    advance_state_machine TaskType.PLAN_SCENE i o =
      AdvanceResult.createTask TaskType.DRAFT_SCENE
        (buildNextInput i o TaskType.DRAFT_SCENE) := by
  simp [advance_state_machine, NEXT_TASK]

theorem advance_draft (i o : Payload) :
    advance_state_machine TaskType.DRAFT_SCENE i o =
      AdvanceResult.createTask TaskType.EXTRACT_FACTS
        (buildNextInput i o TaskType.EXTRACT_FACTS) := by
  simp [advance_state_machine, NEXT_TASK]

theorem advance_extract (i o : Payload) :
    advance_state_machine TaskType.EXTRACT_FACTS i o =
      AdvanceResult.createTask TaskType.RUN_CHECKS
        (buildNextInput i o TaskType.RUN_CHECKS) := by
  simp [advance_state_machine, NEXT_TASK]

theorem advance_revise (i o : Payload) :
    advance_state_machine TaskType.REVISE i o =
      AdvanceResult.createTask TaskType.EXTRACT_FACTS
        (buildNextInput i o TaskType.EXTRACT_FACTS) := by
  simp [advance_state_machine, NEXT_TASK]

theorem advance_commit (i o : Payload) :
    advance_state_machine TaskType.COMMIT i o =
      AdvanceResult.finishIteration IterationStatus.passed := by
  simp [advance_state_machine]

theorem advance_check_pass (i o : Payload)
    (h : pget o "all_passed" = some (Val.bool true)) :
    advance_state_machine TaskType.RUN_CHECKS i o =
      AdvanceResult.createTask TaskType.COMMIT
        (buildNextInput i o TaskType.COMMIT) := by
  simp [advance_state_machine, getD, h, pyTruthy]

theorem advance_check_fail_ge (i o : Payload) (a m : Int)
    (ho : pget o "all_passed" = some (Val.bool false))
    (ha : pget i "current_attempt" = some (Val.int a))
    (hm : pget i "max_attempts" = some (Val.int m))
    (hge : a ≥ m) :
    advance_state_machine TaskType.RUN_CHECKS i o =
      AdvanceResult.finishIteration IterationStatus.failed := by
  simp [advance_state_machine, getD, ho, pyTruthy, getIntD, ha, hm, hge]

theorem advance_check_fail_lt (i o : Payload) (a m : Int)
    (ho : pget o "all_passed" = some (Val.bool false))
    (ha : pget i "current_attempt" = some (Val.int a))
    (hm : pget i "max_attempts" = some (Val.int m))
    (hlt : a < m) :
    advance_state_machine TaskType.RUN_CHECKS i o =
      AdvanceResult.createTask TaskType.REVISE
        (buildNextInput i o TaskType.REVISE) := by
  simp [advance_state_machine, getD, ho, pyTruthy, getIntD, ha, hm, not_le.mpr hlt]

theorem runTrace_create (oracle : Oracle) (fuel : Nat) (t : TaskType) (inp : Payload)
    {t2 : TaskType} {inp2 : Payload}
    (h : advance_state_machine t inp (oracle t inp) = AdvanceResult.createTask t2 inp2) :
    runTrace oracle (fuel + 1) t inp =
      Option.map (fun r => ((t2, inp2) :: r.1, r.2)) (runTrace oracle fuel t2 inp2) := by
  rw [runTrace, h]
  cases hr : runTrace oracle fuel t2 inp2 with
  | none => simp [hr]
  | some r =>
    obtain ⟨rest, s⟩ := r
    simp [hr]

theorem runTrace_finish (oracle : Oracle) (fuel : Nat) {t : TaskType} {inp : Payload}
    {s : IterationStatus}
    (h : advance_state_machine t inp (oracle t inp) = AdvanceResult.finishIteration s) :
    runTrace oracle (fuel + 1) t inp = some ([], s) := by
  rw [runTrace, h]

end StepLemmas

/-- C2: when the first RUN_CHECKS output reports `all_passed = true` and all
handlers succeed, the machine creates exactly the successor chain
DRAFT_SCENE, EXTRACT_FACTS, RUN_CHECKS, COMMIT after the initial PLAN_SCENE
task — five tasks in total — and completing COMMIT sets the iteration status
to passed, for every `max_attempts` value. -/
theorem claim_C2_first_pass (oracle : Oracle) (scene_id max_attempts : Int)
    (hpass : ∀ inp, pget (oracle TaskType.RUN_CHECKS inp) "all_passed" =
      some (Val.bool true)) :
    ∃ tr, runTrace oracle 10 TaskType.PLAN_SCENE (initInput scene_id max_attempts) =
        some (tr, IterationStatus.passed) ∧
      tr.map Prod.fst =
        [TaskType.DRAFT_SCENE, TaskType.EXTRACT_FACTS, TaskType.RUN_CHECKS,
         TaskType.COMMIT] ∧
      ((TaskType.PLAN_SCENE, initInput scene_id max_attempts) :: tr).length = 5 := by
  obtain ⟨i1, hi1⟩ : ∃ x, buildNextInput (initInput scene_id max_attempts)
      (oracle TaskType.PLAN_SCENE (initInput scene_id max_attempts))
      TaskType.DRAFT_SCENE = x := ⟨_, rfl⟩
  obtain ⟨i2, hi2⟩ : ∃ x, buildNextInput i1 (oracle TaskType.DRAFT_SCENE i1)
      TaskType.EXTRACT_FACTS = x := ⟨_, rfl⟩
  obtain ⟨i3, hi3⟩ : ∃ x, buildNextInput i2 (oracle TaskType.EXTRACT_FACTS i2)
      TaskType.RUN_CHECKS = x := ⟨_, rfl⟩
  obtain ⟨i4, hi4⟩ : ∃ x, buildNextInput i3 (oracle TaskType.RUN_CHECKS i3)
      TaskType.COMMIT = x := ⟨_, rfl⟩
  have h6 : runTrace oracle 6 TaskType.COMMIT i4 = some ([], IterationStatus.passed) :=
    runTrace_finish oracle 5 (advance_commit _ _)
  have h7 : runTrace oracle 7 TaskType.RUN_CHECKS i3 =
      some ([(TaskType.COMMIT, i4)], IterationStatus.passed) := by
    have h := runTrace_create oracle 6 TaskType.RUN_CHECKS i3 (by rw [advance_check_pass _ _ (hpass i3), hi4])
    rw [h6] at h
    simpa using h
  have h8 : runTrace oracle 8 TaskType.EXTRACT_FACTS i2 =
      some ([(TaskType.RUN_CHECKS, i3), (TaskType.COMMIT, i4)],
        IterationStatus.passed) := by
    have h := runTrace_create oracle 7 TaskType.EXTRACT_FACTS i2 (by rw [advance_extract, hi3])
    rw [h7] at h
    simpa using h
  have h9 : runTrace oracle 9 TaskType.DRAFT_SCENE i1 =
      some ([(TaskType.EXTRACT_FACTS, i2), (TaskType.RUN_CHECKS, i3),
             (TaskType.COMMIT, i4)], IterationStatus.passed) := by
    have h := runTrace_create oracle 8 TaskType.DRAFT_SCENE i1 (by rw [advance_draft, hi2])
    rw [h8] at h
    simpa using h
  have h10 : runTrace oracle 10 TaskType.PLAN_SCENE (initInput scene_id max_attempts) =
      some ([(TaskType.DRAFT_SCENE, i1), (TaskType.EXTRACT_FACTS, i2),
             (TaskType.RUN_CHECKS, i3), (TaskType.COMMIT, i4)],
        IterationStatus.passed) := by
    have h := runTrace_create oracle 9 TaskType.PLAN_SCENE (initInput scene_id max_attempts) (by rw [advance_plan, hi1])
    rw [h9] at h
    simpa using h
  exact ⟨_, h10, by simp, by simp⟩

theorem claim_C2_first_pass_witness :
    ∃ tr, runTrace oraclePass 10 TaskType.PLAN_SCENE (initInput 1 3) =
        some (tr, IterationStatus.passed) ∧
      tr.map Prod.fst =
        [TaskType.DRAFT_SCENE, TaskType.EXTRACT_FACTS, TaskType.RUN_CHECKS,
         TaskType.COMMIT] ∧
      ((TaskType.PLAN_SCENE, initInput 1 3) :: tr).length = 5 :=
  claim_C2_first_pass oraclePass 1 3 (fun _ => by simp [oraclePass, pget])

section KeyLemmas

theorem pget_carryKey (p o : Payload) (kk k : String) :
    pget (carryKey p o kk) k =
      if k = kk then
        (match pget o kk with
         | some v => some v
         | Option.none => pget p k)
      else pget p k := by
  by_cases h : k = kk
  · subst h
    rw [if_pos rfl]
    exact pget_carryKey_same p o k
  · rw [if_neg h]
    exact pget_carryKey_ne p o kk k h

/-- The whitelist keys of the next input are exactly the completed task's
output values for those keys. -/
theorem nextInputBase_carry (i o : Payload) (k : String)
    (hk : k = "draft_id" ∨ k = "plan" ∨ k = "facts" ∨ k = "findings") :
    pget (nextInputBase i o) k = pget o k := by
  rcases hk with h | h | h | h <;> subst h
  · cases hpo : pget o "draft_id" <;> simp [nextInputBase, pget_carryKey, hpo, pget]
  · cases hpo : pget o "plan" <;> simp [nextInputBase, pget_carryKey, hpo, pget]
  · cases hpo : pget o "facts" <;> simp [nextInputBase, pget_carryKey, hpo, pget]
  · cases hpo : pget o "findings" <;> simp [nextInputBase, pget_carryKey, hpo, pget]

/-- A key that is neither iteration-scoped nor whitelisted is absent from
the next input. -/
theorem nextInputBase_other (i o : Payload) (k : String)
    (h1 : k ≠ "scene_id") (h2 : k ≠ "max_attempts") (h3 : k ≠ "current_attempt")
    (h4 : k ≠ "draft_id") (h5 : k ≠ "plan") (h6 : k ≠ "facts") (h7 : k ≠ "findings") :
    pget (nextInputBase i o) k = Option.none := by
  simp [nextInputBase, pget_carryKey, h4, h5, h6, h7, pget,
    Ne.symm h1, Ne.symm h2, Ne.symm h3]

theorem buildNextInput_carry (i o : Payload) (t : TaskType) (k : String)
    (hk : k = "draft_id" ∨ k = "plan" ∨ k = "facts" ∨ k = "findings") :
    pget (buildNextInput i o t) k = pget o k := by
  have hne : k ≠ "current_attempt" := by
    rcases hk with h | h | h | h <;> subst h <;> decide
  unfold buildNextInput
  by_cases ht : t = TaskType.REVISE <;>
    simp [ht, pget_setKey_ne _ _ _ _ hne, nextInputBase_carry i o k hk]

theorem buildNextInput_other (i o : Payload) (t : TaskType) (k : String)
    (h1 : k ≠ "scene_id") (h2 : k ≠ "max_attempts") (h3 : k ≠ "current_attempt")
    (h4 : k ≠ "draft_id") (h5 : k ≠ "plan") (h6 : k ≠ "facts") (h7 : k ≠ "findings") :
    pget (buildNextInput i o t) k = Option.none := by
  unfold buildNextInput
  by_cases ht : t = TaskType.REVISE <;>
    simp [ht, pget_setKey_ne _ _ _ _ h3,
      nextInputBase_other i o k h1 h2 h3 h4 h5 h6 h7]

end KeyLemmas

/-- C8: the successor task's input consists exactly of the iteration-scoped
fields `scene_id`, `max_attempts`, `current_attempt` (values taken from the
completed task's input, with the attempt counter incremented exactly when
the successor is REVISE) plus exactly those of the whitelisted keys
`draft_id`, `plan`, `facts`, `findings` that are present in the completed
task's output, with the output's values; every other key of the output is
absent from the successor's input. -/
theorem claim_C8_input_propagation (input output : Payload) (t2 : TaskType) (a : Int)
    (ha : pget input "current_attempt" = some (Val.int a)) :
    (∀ k, (pget (buildNextInput input output t2) k).isSome ↔
        (k = "scene_id" ∨ k = "max_attempts" ∨ k = "current_attempt" ∨
         ((k = "draft_id" ∨ k = "plan" ∨ k = "facts" ∨ k = "findings") ∧
           (pget output k).isSome)))
    ∧ pget (buildNextInput input output t2) "scene_id" =
        some ((pget input "scene_id").getD Val.none)
    ∧ pget (buildNextInput input output t2) "max_attempts" =
        some (getD input "max_attempts" (Val.int 3))
    ∧ pget (buildNextInput input output t2) "current_attempt" =
        some (Val.int (if t2 = TaskType.REVISE then a + 1 else a))
    ∧ (∀ k, (k = "draft_id" ∨ k = "plan" ∨ k = "facts" ∨ k = "findings") →
        pget (buildNextInput input output t2) k = pget output k) := by
  refine ⟨?_, buildNextInput_scene_id input output t2,
    buildNextInput_max_attempts input output t2, ?_, fun k hk =>
      buildNextInput_carry input output t2 k hk⟩
  · intro k
    by_cases h1 : k = "scene_id"
    · subst h1; simp [buildNextInput_scene_id]
    by_cases h2 : k = "max_attempts"
    · subst h2; simp [buildNextInput_max_attempts]
    by_cases h3 : k = "current_attempt"
    · subst h3
      by_cases ht : t2 = TaskType.REVISE
      · subst ht; simp [buildNextInput_attempt_revise]
      · simp [buildNextInput_attempt_other input output t2 ht]
    by_cases h4 : k = "draft_id"
    · subst h4; simp [buildNextInput_carry input output t2 _ (Or.inl rfl)]
    by_cases h5 : k = "plan"
    · subst h5; simp [buildNextInput_carry input output t2 _ (Or.inr (Or.inl rfl))]
    by_cases h6 : k = "facts"
    · subst h6
      simp [buildNextInput_carry input output t2 _ (Or.inr (Or.inr (Or.inl rfl)))]
    by_cases h7 : k = "findings"
    · subst h7
      simp [buildNextInput_carry input output t2 _ (Or.inr (Or.inr (Or.inr rfl)))]
    simp [buildNextInput_other input output t2 k h1 h2 h3 h4 h5 h6 h7,
      h1, h2, h3, h4, h5, h6, h7]
  · by_cases ht : t2 = TaskType.REVISE
    · subst ht
      rw [buildNextInput_attempt_revise, getD, ha]
      simp [pyAddOne]
    · rw [buildNextInput_attempt_other input output t2 ht, getD, ha]
      simp [ht]

theorem claim_C8_input_propagation_witness :
    pget (buildNextInput (initInput 1 3) [] TaskType.REVISE) "current_attempt" =
      some (Val.int 1) := by
  have h := (claim_C8_input_propagation (initInput 1 3) [] TaskType.REVISE 0
    (by simp [initInput, pget])).2.2.2.1
  simpa using h

/-- C9: when a completed RUN_CHECKS output lacks `all_passed` the state
machine treats the check as failed (the COMMIT branch is not taken, and when
`all_passed` is a boolean, the COMMIT branch is taken exactly when it is
true); a missing `current_attempt` defaults to 0 and a missing
`max_attempts` defaults to 3 in the branch decision. -/
theorem claim_C9_missing_defaults :
    (∀ input output : Payload, pget output "all_passed" = Option.none →
      advance_state_machine TaskType.RUN_CHECKS input output =
        (if getIntD input "current_attempt" 0 ≥ getIntD input "max_attempts" 3 then
          AdvanceResult.finishIteration IterationStatus.failed
        else
          AdvanceResult.createTask TaskType.REVISE
            (buildNextInput input output TaskType.REVISE)))
    ∧ (∀ (input output : Payload) (b : Bool),
        pget output "all_passed" = some (Val.bool b) →
        ((advance_state_machine TaskType.RUN_CHECKS input output =
          AdvanceResult.createTask TaskType.COMMIT
            (buildNextInput input output TaskType.COMMIT)) ↔ b = true))
    ∧ (∀ (input output : Payload) (m : Int), pget output "all_passed" = Option.none →
        pget input "current_attempt" = Option.none →
        pget input "max_attempts" = some (Val.int m) →
        ((advance_state_machine TaskType.RUN_CHECKS input output =
          AdvanceResult.finishIteration IterationStatus.failed) ↔ (0 : Int) ≥ m))
    ∧ (∀ (input output : Payload) (a : Int), pget output "all_passed" = Option.none →
        pget input "current_attempt" = some (Val.int a) →
        pget input "max_attempts" = Option.none →
        ((advance_state_machine TaskType.RUN_CHECKS input output =
          AdvanceResult.finishIteration IterationStatus.failed) ↔ a ≥ 3)) := by
  refine ⟨?_, ?_, ?_, ?_⟩
  · intro input output h
    by_cases hge : getIntD input "current_attempt" 0 ≥ getIntD input "max_attempts" 3 <;>
      simp [advance_state_machine, getD, h, pyTruthy, hge]
  · intro input output b h
    cases b
    · by_cases hge : getIntD input "current_attempt" 0 ≥ getIntD input "max_attempts" 3 <;>
        simp [advance_state_machine, getD, h, pyTruthy, hge]
    · simp [advance_check_pass input output h]
  · intro input output m h ha hm
    by_cases hge : (0 : Int) ≥ m <;>
      simp [advance_state_machine, getD, h, pyTruthy, getIntD, ha, hm, hge]
  · intro input output a h ha hm
    by_cases hge : a ≥ (3 : Int) <;>
      simp [advance_state_machine, getD, h, pyTruthy, getIntD, ha, hm, hge]

theorem claim_C9_missing_defaults_witness :
    advance_state_machine TaskType.RUN_CHECKS [] [] =
      AdvanceResult.createTask TaskType.REVISE (buildNextInput [] [] TaskType.REVISE) := by
  have h := claim_C9_missing_defaults.1 [] [] rfl
  simpa [getIntD, pget] using h

section FailLoop

theorem countTasks_cons (t' : TaskType) (p : Payload) (l : List (TaskType × Payload))
    (t : TaskType) :
    countTasks ((t', p) :: l) t = (if t' = t then 1 else 0) + countTasks l t := by
  by_cases h : t' = t <;> simp [countTasks, h, Nat.add_comm]

/-- From a RUN_CHECKS task whose input carries attempt `a` and limit
`N = a + d`, with every check reporting failure, the machine performs `d`
REVISE → EXTRACT_FACTS → RUN_CHECKS cycles and then fails the iteration;
the last RUN_CHECKS task created carries attempt `N`. -/
theorem runTrace_fail_loop (oracle : Oracle)
    (hfail : ∀ inp, pget (oracle TaskType.RUN_CHECKS inp) "all_passed" =
      some (Val.bool false)) :
    ∀ (d : Nat) (a N : Int) (inp : Payload) (fuel : Nat),
      pget inp "current_attempt" = some (Val.int a) →
      pget inp "max_attempts" = some (Val.int N) →
      N = a + d →
      3 * d + 1 ≤ fuel →
      ∃ tr, runTrace oracle fuel TaskType.RUN_CHECKS inp =
          some (tr, IterationStatus.failed) ∧
        countTasks tr TaskType.REVISE = d ∧
        countTasks tr TaskType.RUN_CHECKS = d ∧
        (if d = 0 then tr = []
         else ∃ ic, lastInputOf TaskType.RUN_CHECKS tr = some ic ∧
           pget ic "current_attempt" = some (Val.int N) ∧
           pget ic "max_attempts" = some (Val.int N)) := by
  intro d
  induction d with
  | zero =>
    intro a N inp fuel ha hm hN hfuel
    obtain ⟨f, rfl⟩ : ∃ f, fuel = f + 1 := ⟨fuel - 1, by omega⟩
    have hge : a ≥ N := by omega
    refine ⟨[], runTrace_finish oracle f
      (advance_check_fail_ge inp _ a N (hfail inp) ha hm hge), ?_, ?_, ?_⟩ <;>
      simp [countTasks]
  | succ d ih =>
    intro a N inp fuel ha hm hN hfuel
    obtain ⟨f, rfl, hf⟩ : ∃ f, fuel = f + 3 ∧ 3 * d + 1 ≤ f :=
      ⟨fuel - 3, by omega, by omega⟩
    have hlt : a < N := by omega
    obtain ⟨ir, hir⟩ : ∃ x, buildNextInput inp (oracle TaskType.RUN_CHECKS inp)
      TaskType.REVISE = x := ⟨_, rfl⟩
    have hir_ca : pget ir "current_attempt" = some (Val.int (a + 1)) := by
      rw [← hir, buildNextInput_attempt_revise, getD, ha]
      rfl
    have hir_ma : pget ir "max_attempts" = some (Val.int N) := by
      rw [← hir, buildNextInput_max_attempts, getD, hm]
      rfl
    obtain ⟨ie, hie⟩ : ∃ x, buildNextInput ir (oracle TaskType.REVISE ir)
      TaskType.EXTRACT_FACTS = x := ⟨_, rfl⟩
    have hie_ca : pget ie "current_attempt" = some (Val.int (a + 1)) := by
      rw [← hie, buildNextInput_attempt_other _ _ _ (by decide), getD, hir_ca]
      rfl
    have hie_ma : pget ie "max_attempts" = some (Val.int N) := by
      rw [← hie, buildNextInput_max_attempts, getD, hir_ma]
      rfl
    obtain ⟨ic, hic⟩ : ∃ x, buildNextInput ie (oracle TaskType.EXTRACT_FACTS ie)
      TaskType.RUN_CHECKS = x := ⟨_, rfl⟩
    have hic_ca : pget ic "current_attempt" = some (Val.int (a + 1)) := by
      rw [← hic, buildNextInput_attempt_other _ _ _ (by decide), getD, hie_ca]
      rfl
    have hic_ma : pget ic "max_attempts" = some (Val.int N) := by
      rw [← hic, buildNextInput_max_attempts, getD, hie_ma]
      rfl
    obtain ⟨tr', htr', hrev', hchk', hlast'⟩ :=
      ih (a + 1) N ic f hic_ca hic_ma (by push_cast at hN; omega) hf
    have hC : runTrace oracle (f + 1) TaskType.EXTRACT_FACTS ie =
        some ((TaskType.RUN_CHECKS, ic) :: tr', IterationStatus.failed) := by
      have h := runTrace_create oracle f TaskType.EXTRACT_FACTS ie
        (by rw [advance_extract, hic])
      rw [htr'] at h
      simpa using h
    have hB : runTrace oracle (f + 2) TaskType.REVISE ir =
        some ((TaskType.EXTRACT_FACTS, ie) :: (TaskType.RUN_CHECKS, ic) :: tr',
          IterationStatus.failed) := by
      have h := runTrace_create oracle (f + 1) TaskType.REVISE ir
        (by rw [advance_revise, hie])
      rw [hC] at h
      simpa using h
    have hA : runTrace oracle (f + 3) TaskType.RUN_CHECKS inp =
        some ((TaskType.REVISE, ir) :: (TaskType.EXTRACT_FACTS, ie) ::
          (TaskType.RUN_CHECKS, ic) :: tr', IterationStatus.failed) := by
      have h := runTrace_create oracle (f + 2) TaskType.RUN_CHECKS inp
        (by rw [advance_check_fail_lt inp _ a N (hfail inp) ha hm hlt, hir])
      rw [hB] at h
      simpa using h
    refine ⟨_, hA, ?_, ?_, ?_⟩
    · simp [countTasks_cons, hrev', Nat.add_comm]
    · simp [countTasks_cons, hchk', Nat.add_comm]
    · simp only [Nat.succ_ne_zero, if_false]
      by_cases hd : d = 0
      · subst hd
        simp only [if_pos rfl] at hlast'
        subst hlast'
        refine ⟨ic, ?_, ?_, hic_ma⟩
        · simp [lastInputOf]
        · rw [hic_ca]
          congr 2
          omega
      · rw [if_neg hd] at hlast'
        obtain ⟨ic', hic', hca', hma'⟩ := hlast'
        exact ⟨ic', by simp [lastInputOf, hic'], hca', hma'⟩

end FailLoop

/-- C1: with `max_attempts = N ≥ 1` and every RUN_CHECKS output reporting
`all_passed = false`, the state machine drives the iteration to status
failed after creating exactly N REVISE tasks and N+1 RUN_CHECKS tasks, the
final RUN_CHECKS task's input carrying `current_attempt = N`; and the
failing branch is taken exactly when `current_attempt >= max_attempts`. -/
theorem claim_C1_all_fail (oracle : Oracle) (scene_id : Int) (n : Nat) (hn : 1 ≤ n)
    (hfail : ∀ inp, pget (oracle TaskType.RUN_CHECKS inp) "all_passed" =
      some (Val.bool false)) :
    (∃ tr, runTrace oracle (3 * n + 5) TaskType.PLAN_SCENE
        (initInput scene_id (n : Int)) = some (tr, IterationStatus.failed) ∧
      countTasks tr TaskType.REVISE = n ∧
      countTasks tr TaskType.RUN_CHECKS = n + 1 ∧
      (∃ ic, lastInputOf TaskType.RUN_CHECKS tr = some ic ∧
        pget ic "current_attempt" = some (Val.int (n : Int)) ∧
        pget ic "max_attempts" = some (Val.int (n : Int))))
    ∧ (∀ (input output : Payload) (a m : Int),
        pget output "all_passed" = some (Val.bool false) →
        pget input "current_attempt" = some (Val.int a) →
        pget input "max_attempts" = some (Val.int m) →
        ((advance_state_machine TaskType.RUN_CHECKS input output =
          AdvanceResult.finishIteration IterationStatus.failed) ↔ a ≥ m)) := by
  constructor
  · have hi0_ca : pget (initInput scene_id (n : Int)) "current_attempt" =
        some (Val.int 0) := by simp [initInput, pget]
    have hi0_ma : pget (initInput scene_id (n : Int)) "max_attempts" =
        some (Val.int (n : Int)) := by simp [initInput, pget]
    obtain ⟨i1, hi1⟩ : ∃ x, buildNextInput (initInput scene_id (n : Int))
      (oracle TaskType.PLAN_SCENE (initInput scene_id (n : Int)))
      TaskType.DRAFT_SCENE = x := ⟨_, rfl⟩
    have hi1_ca : pget i1 "current_attempt" = some (Val.int 0) := by
      rw [← hi1, buildNextInput_attempt_other _ _ _ (by decide), getD, hi0_ca]
      rfl
    have hi1_ma : pget i1 "max_attempts" = some (Val.int (n : Int)) := by
      rw [← hi1, buildNextInput_max_attempts, getD, hi0_ma]
      rfl
    obtain ⟨i2, hi2⟩ : ∃ x, buildNextInput i1 (oracle TaskType.DRAFT_SCENE i1)
      TaskType.EXTRACT_FACTS = x := ⟨_, rfl⟩
    have hi2_ca : pget i2 "current_attempt" = some (Val.int 0) := by
      rw [← hi2, buildNextInput_attempt_other _ _ _ (by decide), getD, hi1_ca]
      rfl
    have hi2_ma : pget i2 "max_attempts" = some (Val.int (n : Int)) := by
      rw [← hi2, buildNextInput_max_attempts, getD, hi1_ma]
      rfl
    obtain ⟨i3, hi3⟩ : ∃ x, buildNextInput i2 (oracle TaskType.EXTRACT_FACTS i2)
      TaskType.RUN_CHECKS = x := ⟨_, rfl⟩
    have hi3_ca : pget i3 "current_attempt" = some (Val.int 0) := by
      rw [← hi3, buildNextInput_attempt_other _ _ _ (by decide), getD, hi2_ca]
      rfl
    have hi3_ma : pget i3 "max_attempts" = some (Val.int (n : Int)) := by
      rw [← hi3, buildNextInput_max_attempts, getD, hi2_ma]
      rfl
    obtain ⟨tr', htr', hrev', hchk', hlast'⟩ := runTrace_fail_loop oracle hfail n 0
      (n : Int) i3 (3 * n + 2) hi3_ca hi3_ma (by omega) (by omega)
    have hC : runTrace oracle (3 * n + 3) TaskType.EXTRACT_FACTS i2 =
        some ((TaskType.RUN_CHECKS, i3) :: tr', IterationStatus.failed) := by
      have h := runTrace_create oracle (3 * n + 2) TaskType.EXTRACT_FACTS i2
        (by rw [advance_extract, hi3])
      rw [htr'] at h
      simpa using h
    have hB : runTrace oracle (3 * n + 4) TaskType.DRAFT_SCENE i1 =
        some ((TaskType.EXTRACT_FACTS, i2) :: (TaskType.RUN_CHECKS, i3) :: tr',
          IterationStatus.failed) := by
      have h := runTrace_create oracle (3 * n + 3) TaskType.DRAFT_SCENE i1
        (by rw [advance_draft, hi2])
      rw [hC] at h
      simpa using h
    have hA : runTrace oracle (3 * n + 5) TaskType.PLAN_SCENE
        (initInput scene_id (n : Int)) =
        some ((TaskType.DRAFT_SCENE, i1) :: (TaskType.EXTRACT_FACTS, i2) ::
          (TaskType.RUN_CHECKS, i3) :: tr', IterationStatus.failed) := by
      have h := runTrace_create oracle (3 * n + 4) TaskType.PLAN_SCENE (initInput scene_id (n : Int))
        (by rw [advance_plan, hi1])
      rw [hB] at h
      simpa using h
    rw [if_neg (by omega)] at hlast'
    obtain ⟨ic, hic, hca, hma⟩ := hlast'
    refine ⟨_, hA, ?_, ?_, ⟨ic, ?_, ?_, hma⟩⟩
    · simp [countTasks_cons, hrev']
    · simp [countTasks_cons, hchk', Nat.add_comm]
    · simp [lastInputOf, hic]
    · exact hca
  · intro input output a m ho ha hm
    by_cases hge : a ≥ m
    · simp [advance_check_fail_ge input output a m ho ha hm hge, hge]
    · simp [advance_check_fail_lt input output a m ho ha hm (not_le.mp hge), hge]

theorem claim_C1_all_fail_witness :
    ∃ tr, runTrace oracleFail (3 * 2 + 5) TaskType.PLAN_SCENE
        (initInput 1 (2 : Int)) = some (tr, IterationStatus.failed) ∧
      countTasks tr TaskType.REVISE = 2 ∧
      countTasks tr TaskType.RUN_CHECKS = 3 ∧
      (∃ ic, lastInputOf TaskType.RUN_CHECKS tr = some ic ∧
        pget ic "current_attempt" = some (Val.int 2) ∧
        pget ic "max_attempts" = some (Val.int 2)) := by
  have h := (claim_C1_all_fail oracleFail 1 2 (by norm_num)
    (fun _ => by simp [oracleFail, pget])).1
  simpa using h

section StoreLemmas

theorem setTask_scenes (st : St) (task_id : Int) (f : TaskRec -> TaskRec) :
    (setTask st task_id f).scenes = st.scenes := rfl

theorem setTask_drafts (st : St) (task_id : Int) (f : TaskRec -> TaskRec) :
    (setTask st task_id f).drafts = st.drafts := rfl

theorem setTask_iterations (st : St) (task_id : Int) (f : TaskRec -> TaskRec) :
    (setTask st task_id f).iterations = st.iterations := rfl

theorem setTask_queue (st : St) (task_id : Int) (f : TaskRec -> TaskRec) :
    (setTask st task_id f).queue = st.queue := rfl

theorem setTask_tasks_length (st : St) (task_id : Int) (f : TaskRec -> TaskRec) :
    (setTask st task_id f).tasks.length = st.tasks.length := by
  simp [setTask]

theorem advance_store_drafts (st : St) (t : TaskRec) :
    (advance_state_machine_store st t).drafts = st.drafts := by
  unfold advance_state_machine_store
  cases advance_state_machine t.task_type t.input_jsonb t.output_jsonb <;> rfl

/-- A handler-ok run of the dispatcher: output persisted, task completed,
then the state machine is advanced. -/
theorem process_task_with_ok (handlers : TaskType → Handler) (st : St) (task_id : Int)
    (task : TaskRec) (st2 : St) (output : Payload)
    (hget : get_task st task_id = some task)
    (hok : handlers task.task_type
        (setTask st task_id (fun t => { t with locked := true, status := TaskStatus.running, attempts := t.attempts + 1 }))
        { task with locked := true, status := TaskStatus.running, attempts := task.attempts + 1 } = Except.ok (st2, output)) :
    process_task_with handlers st task_id =
      (advance_state_machine_store
        (setTask st2 task_id (fun t => { t with output_jsonb := output, status := TaskStatus.completed }))
        { task with locked := true, attempts := task.attempts + 1, output_jsonb := output, status := TaskStatus.completed },
       Except.ok output) := by
  simp only [process_task_with, hget, hok]

/-- A handler-error run of the dispatcher: the error is persisted as the
task's output, the task is marked failed, the error is re-raised, and the
state machine is not invoked. -/
theorem process_task_with_error (handlers : TaskType → Handler) (st : St) (task_id : Int)
    (task : TaskRec) (e : String)
    (hget : get_task st task_id = some task)
    (herr : handlers task.task_type
        (setTask st task_id (fun t => { t with locked := true, status := TaskStatus.running, attempts := t.attempts + 1 }))
        { task with locked := true, status := TaskStatus.running, attempts := task.attempts + 1 } = Except.error e) :
    process_task_with handlers st task_id =
      (setTask (setTask st task_id (fun t => { t with locked := true, status := TaskStatus.running, attempts := t.attempts + 1 })) task_id
        (fun t => { t with status := TaskStatus.failed, output_jsonb := [("error", Val.str e)] }),
       Except.error e) := by
  simp only [process_task_with, hget, herr]

theorem setTask_setTask_failed (st : St) (task_id : Int) (e : String) :
    setTask (setTask st task_id (fun t => { t with locked := true, status := TaskStatus.running, attempts := t.attempts + 1 })) task_id
      (fun t => { t with status := TaskStatus.failed, output_jsonb := [("error", Val.str e)] }) =
    setTask st task_id (fun t => { t with locked := true, status := TaskStatus.failed, attempts := t.attempts + 1, output_jsonb := [("error", Val.str e)] }) := by
  simp only [setTask, List.map_map]
  congr 1
  apply List.map_congr_left
  intro t _
  by_cases h : t.id = task_id <;> simp [Function.comp, h]

end StoreLemmas

/-- C3: starting the pipeline for a scene while supplying an existing draft
id that belongs to a different scene fails at the API layer with the
InvalidArgument error (HTTP 400, "Draft does not belong to this scene") and
leaves the store unchanged: no Iteration and no Task record is created. -/
theorem claim_C3_foreign_draft (st : St) (scene_id ma did : Int)
    (scene : SceneRec) (draft : DraftRec)
    (hscene : get_scene st scene_id = some scene)
    (hdid : did ≠ 0)
    (hdraft : get_draft st did = some draft)
    (hmismatch : draft.scene_id ≠ scene_id) :
    run_pipeline st scene_id ma (some did) =
      (st, Except.error (ApiError.badRequest "Draft does not belong to this scene")) ∧
    (run_pipeline st scene_id ma (some did)).1.iterations = st.iterations ∧
    (run_pipeline st scene_id ma (some did)).1.tasks = st.tasks := by
  have h : run_pipeline st scene_id ma (some did) =
      (st, Except.error (ApiError.badRequest "Draft does not belong to this scene")) := by
    simp [run_pipeline, hscene, hdid, hdraft, hmismatch]
  exact ⟨h, by rw [h], by rw [h]⟩

theorem claim_C3_foreign_draft_witness :
    run_pipeline stTwoScenes 1 3 (some 1) =
      (stTwoScenes, Except.error (ApiError.badRequest "Draft does not belong to this scene")) :=
  (claim_C3_foreign_draft stTwoScenes 1 3 1 sceneOne draftOfTwo rfl (by decide) rfl
    (by decide)).1

/-- C7: when a step handler raises, the dispatcher records the error as the
task's structured output, marks the task failed, re-raises the failure, and
does not invoke the state machine: no successor task is created, nothing is
enqueued, no draft is written, and the iteration status is untouched.  The
final conjunct shows the dispatcher consults the handler table only through
the single invocation recorded in the hypothesis, so it never re-invokes the
handler itself. -/
theorem claim_C7_handler_failure (handlers : TaskType → Handler) (st : St)
    (task_id : Int) (task : TaskRec) (e : String)
    (hget : get_task st task_id = some task)
    (hfail : handlers task.task_type
        (setTask st task_id (fun t => { t with locked := true, status := TaskStatus.running, attempts := t.attempts + 1 }))
        { task with locked := true, status := TaskStatus.running, attempts := task.attempts + 1 } = Except.error e) :
    (process_task_with handlers st task_id).2 = Except.error e ∧
    (process_task_with handlers st task_id).1 =
      setTask st task_id (fun t => { t with locked := true, status := TaskStatus.failed, attempts := t.attempts + 1, output_jsonb := [("error", Val.str e)] }) ∧
    (process_task_with handlers st task_id).1.iterations = st.iterations ∧
    (process_task_with handlers st task_id).1.queue = st.queue ∧
    (process_task_with handlers st task_id).1.drafts = st.drafts ∧
    (process_task_with handlers st task_id).1.tasks.length = st.tasks.length ∧
    (∀ handlers2 : TaskType → Handler,
        handlers2 task.task_type
          (setTask st task_id (fun t => { t with locked := true, status := TaskStatus.running, attempts := t.attempts + 1 }))
          { task with locked := true, status := TaskStatus.running, attempts := task.attempts + 1 } = Except.error e →
        process_task_with handlers2 st task_id = process_task_with handlers st task_id) := by
  have hrun := process_task_with_error handlers st task_id task e hget hfail
  rw [setTask_setTask_failed] at hrun
  refine ⟨by rw [hrun], by rw [hrun], ?_, ?_, ?_, ?_, ?_⟩
  · rw [hrun, setTask_iterations]
  · rw [hrun, setTask_queue]
  · rw [hrun, setTask_drafts]
  · rw [hrun]
    exact setTask_tasks_length st task_id _
  · intro handlers2 h2
    have hrun2 := process_task_with_error handlers2 st task_id task e hget h2
    rw [setTask_setTask_failed] at hrun2
    rw [hrun, hrun2]

theorem claim_C7_handler_failure_witness :
    (process_task_with handlersFail stDone 10).2 = Except.error "boom" ∧
    (process_task_with handlersFail stDone 10).1.queue = stDone.queue ∧
    (process_task_with handlersFail stDone 10).1.drafts = stDone.drafts ∧
    (process_task_with handlersFail stDone 10).1.tasks.length = stDone.tasks.length := by
  have h := claim_C7_handler_failure handlersFail stDone 10 taskDone "boom" rfl rfl
  exact ⟨h.1, h.2.2.2.1, h.2.2.2.2.1, h.2.2.2.2.2.1⟩

section FreshIdLemmas

theorem le_foldl_max (l : List Int) (a : Int) : a ≤ l.foldl max a := by
  induction l generalizing a with
  | nil => exact le_refl a
  | cons x l ih => exact le_trans (le_max_left a x) (ih (max a x))

theorem mem_le_foldl_max {x : Int} :
    ∀ (l : List Int) (a : Int), x ∈ l → x ≤ l.foldl max a := by
  intro l
  induction l with
  | nil =>
    intro a h
    cases h
  | cons y l ih =>
    intro a h
    rcases List.mem_cons.mp h with h | h
    · subst h
      exact le_trans (le_max_right a x) (le_foldl_max l (max a x))
    · exact ih (max a y) h

theorem freshId_not_mem (l : List Int) : freshId l ∉ l := by
  intro h
  have h1 := mem_le_foldl_max l 0 h
  simp only [freshId] at h1
  omega

theorem map_update_iterations_id (its : List IterationRec) (iid : Int)
    (s : IterationStatus) (h : ∀ x ∈ its, x.id ≠ iid) :
    its.map (fun it => if it.id = iid then { it with status := s } else it) = its := by
  induction its with
  | nil => rfl
  | cons y ys ih =>
    have hy : y.id ≠ iid := h y (by simp)
    simp only [List.map_cons, if_neg hy]
    rw [ih (fun x hx => h x (by simp [hx]))]

end FreshIdLemmas

/-- C5 counterexample: on a store with one scene, when the enqueue step of
`start_iteration` fails, the store is left with a "running" Iteration, its
first Task, and an empty queue — a partially created state, so the three
effects are not observably atomic. -/
theorem claim_C5_enqueue_failure_counterexample :
    (start_iteration stScene 1 3 false).2 = Except.error "enqueue failed" ∧
    ((start_iteration stScene 1 3 false).1.iterations.map
      (fun it => (it.id, it.status))) = [(1, IterationStatus.running)] ∧
    ((start_iteration stScene 1 3 false).1.tasks.map
      (fun t => (t.id, t.task_type, t.status))) =
      [(1, TaskType.PLAN_SCENE, TaskStatus.pending)] ∧
    (start_iteration stScene 1 3 false).1.queue = [] :=
  ⟨rfl, rfl, rfl, rfl⟩

/-- C5 amended: `start_iteration` commits the iteration row, the first task
row and the "running" status in separate transactions and only then
enqueues, with no rollback; when the enqueue step fails the call raises, but
the store keeps the new running Iteration and its first PLAN task (with
input `{scene_id, max_attempts, current_attempt: 0}`) while nothing is
enqueued — the enqueue failure is reported to the caller but the three
record effects are not undone, so the operation is not observably atomic. -/
theorem claim_C5_enqueue_failure_amended (st : St) (scene_id max_attempts : Int)
    (scene : SceneRec) (hscene : get_scene st scene_id = some scene) :
    ∃ (it : IterationRec) (tk : TaskRec),
      (start_iteration st scene_id max_attempts false).2 = Except.error "enqueue failed" ∧
      (start_iteration st scene_id max_attempts false).1.iterations = st.iterations ++ [it] ∧
      it.status = IterationStatus.running ∧
      it.scene_id = scene_id ∧
      (start_iteration st scene_id max_attempts false).1.tasks = st.tasks ++ [tk] ∧
      tk.iteration_id = it.id ∧
      tk.task_type = TaskType.PLAN_SCENE ∧
      tk.status = TaskStatus.pending ∧
      tk.input_jsonb = [("scene_id", Val.int scene_id),
        ("max_attempts", Val.int max_attempts), ("current_attempt", Val.int 0)] ∧
      (start_iteration st scene_id max_attempts false).1.queue = st.queue := by
  have hfresh : ∀ x ∈ st.iterations,
      x.id ≠ freshId (st.iterations.map (fun x : IterationRec => x.id)) := by
    intro x hx he
    exact freshId_not_mem _ (he ▸ List.mem_map_of_mem (fun x : IterationRec => x.id) hx)
  have hrun : start_iteration st scene_id max_attempts false =
      (update_iteration_status
        (create_task (create_iteration st scene_id).1 (create_iteration st scene_id).2.id
          TaskType.PLAN_SCENE [("scene_id", Val.int scene_id),
            ("max_attempts", Val.int max_attempts), ("current_attempt", Val.int 0)]).1
        (create_iteration st scene_id).2.id IterationStatus.running,
       Except.error "enqueue failed") := by
    simp only [start_iteration, hscene]
    rfl
  refine ⟨{ (create_iteration st scene_id).2 with status := IterationStatus.running },
    (create_task (create_iteration st scene_id).1 (create_iteration st scene_id).2.id
      TaskType.PLAN_SCENE [("scene_id", Val.int scene_id),
        ("max_attempts", Val.int max_attempts), ("current_attempt", Val.int 0)]).2,
    ?_, ?_, rfl, rfl, ?_, rfl, rfl, rfl, rfl, ?_⟩
  · rw [hrun]
  · rw [hrun]
    show List.map _ (st.iterations ++ [(create_iteration st scene_id).2]) = _
    rw [List.map_append, map_update_iterations_id st.iterations
      ((create_iteration st scene_id).2).id IterationStatus.running
      (fun x hx => hfresh x hx)]
    simp
  · rw [hrun]
    rfl
  · rw [hrun]
    rfl

theorem claim_C5_enqueue_failure_amended_witness :
    ∃ (it : IterationRec) (tk : TaskRec),
      (start_iteration stScene 1 3 false).2 = Except.error "enqueue failed" ∧
      (start_iteration stScene 1 3 false).1.iterations = stScene.iterations ++ [it] ∧
      it.status = IterationStatus.running ∧
      it.scene_id = 1 ∧
      (start_iteration stScene 1 3 false).1.tasks = stScene.tasks ++ [tk] ∧
      tk.iteration_id = it.id ∧
      tk.task_type = TaskType.PLAN_SCENE ∧
      tk.status = TaskStatus.pending ∧
      tk.input_jsonb = [("scene_id", Val.int 1), ("max_attempts", Val.int 3),
        ("current_attempt", Val.int 0)] ∧
      (start_iteration stScene 1 3 false).1.queue = stScene.queue :=
  claim_C5_enqueue_failure_amended stScene 1 3 sceneOne rfl

/-- The success shape of `handle_draft_scene`: with an integer scene id that
resolves, the handler appends exactly one new Draft via `create_draft` and
reports its id and version. -/
theorem handle_draft_scene_ok (st : St) (task : TaskRec) (i : Int) (scene : SceneRec)
    (hsid : getD task.input_jsonb "scene_id" Val.none = Val.int i)
    (hscene : get_scene st i = some scene) :
    handle_draft_scene st task =
      Except.ok ((create_draft st i (generate_draft scene.card_jsonb
          (valObj (getD task.input_jsonb "plan" (Val.obj []))))).1,
        [("scene_id", Val.int i),
         ("draft_id", Val.int (create_draft st i (generate_draft scene.card_jsonb
           (valObj (getD task.input_jsonb "plan" (Val.obj []))))).2.id),
         ("version", Val.int (create_draft st i (generate_draft scene.card_jsonb
           (valObj (getD task.input_jsonb "plan" (Val.obj []))))).2.version)]) := by
  simp only [handle_draft_scene, hsid, hscene]

/-- C4 counterexample: `stDone` holds exactly one draft and its task 10 is
already completed, yet dispatching task 10 again runs the DRAFT_SCENE
handler once more and creates a second Draft row (version 2): re-dispatching
a completed task id is not a no-op with respect to Draft creation, because
`process_task` has no completed-status short-circuit. -/
theorem claim_C4_redispatch_counterexample :
    (get_task stDone 10).map (fun t => t.status) = some TaskStatus.completed ∧
    stDone.drafts.length = 1 ∧
    ((process_task md5Fixed stDone 10).1.drafts.map
      (fun d => (d.id, d.scene_id, d.version))) = [(1, 1, 1), (2, 1, 2)] :=
  ⟨rfl, rfl, rfl⟩

/-- C4 amended: dispatching a task id whose task is already completed is not
short-circuited: for a completed DRAFT_SCENE task whose scene exists, a
second invocation of the dispatcher re-runs the handler and appends a new
Draft row with the next version number. -/
theorem claim_C4_redispatch_amended (md5f : String → String) (st : St)
    (task_id i : Int) (task : TaskRec) (scene : SceneRec)
    (hget : get_task st task_id = some task)
    (_hstatus : task.status = TaskStatus.completed)
    (htype : task.task_type = TaskType.DRAFT_SCENE)
    (hsid : getD task.input_jsonb "scene_id" Val.none = Val.int i)
    (hscene : get_scene st i = some scene) :
    ∃ d : DraftRec,
      (process_task md5f st task_id).1.drafts = st.drafts ++ [d] ∧
      d.scene_id = i ∧
      d.version = (maxDraftVersion st.drafts i).getD 0 + 1 ∧
      (process_task md5f st task_id).2 =
        Except.ok [("scene_id", Val.int i), ("draft_id", Val.int d.id),
          ("version", Val.int d.version)] := by
  have hscene1 : get_scene (setTask st task_id (fun t => { t with locked := true, status := TaskStatus.running, attempts := t.attempts + 1 })) i = some scene := hscene
  have hok : TASK_HANDLERS md5f task.task_type
      (setTask st task_id (fun t => { t with locked := true, status := TaskStatus.running, attempts := t.attempts + 1 }))
      { task with locked := true, status := TaskStatus.running, attempts := task.attempts + 1 } =
      Except.ok ((create_draft (setTask st task_id (fun t => { t with locked := true, status := TaskStatus.running, attempts := t.attempts + 1 })) i
          (generate_draft scene.card_jsonb (valObj (getD task.input_jsonb "plan" (Val.obj []))))).1,
        [("scene_id", Val.int i),
         ("draft_id", Val.int (create_draft (setTask st task_id (fun t => { t with locked := true, status := TaskStatus.running, attempts := t.attempts + 1 })) i
           (generate_draft scene.card_jsonb (valObj (getD task.input_jsonb "plan" (Val.obj []))))).2.id),
         ("version", Val.int (create_draft (setTask st task_id (fun t => { t with locked := true, status := TaskStatus.running, attempts := t.attempts + 1 })) i
           (generate_draft scene.card_jsonb (valObj (getD task.input_jsonb "plan" (Val.obj []))))).2.version)]) := by
    rw [htype]
    exact handle_draft_scene_ok _ _ i scene hsid hscene1
  have key := process_task_with_ok (TASK_HANDLERS md5f) st task_id task _ _ hget hok
  refine ⟨(create_draft (setTask st task_id (fun t => { t with locked := true, status := TaskStatus.running, attempts := t.attempts + 1 })) i
      (generate_draft scene.card_jsonb (valObj (getD task.input_jsonb "plan" (Val.obj []))))).2,
    ?_, rfl, rfl, ?_⟩
  · show (process_task_with (TASK_HANDLERS md5f) st task_id).1.drafts = _
    rw [key, advance_store_drafts, setTask_drafts]
    rfl
  · show (process_task_with (TASK_HANDLERS md5f) st task_id).2 = _
    rw [key]

theorem claim_C4_redispatch_amended_witness :
    ∃ d : DraftRec,
      (process_task md5Fixed stDone 10).1.drafts = stDone.drafts ++ [d] ∧
      d.scene_id = 1 ∧
      d.version = (maxDraftVersion stDone.drafts 1).getD 0 + 1 ∧
      (process_task md5Fixed stDone 10).2 =
        Except.ok [("scene_id", Val.int 1), ("draft_id", Val.int d.id),
          ("version", Val.int d.version)] :=
  claim_C4_redispatch_amended md5Fixed stDone 10 1 taskDone sceneOne rfl rfl rfl rfl rfl

section VersionLemmas

theorem ascRun_succ (k : Nat) : ascRun (k + 1) = ascRun k ++ [(k : Int) + 1] := by
  rw [ascRun, List.range_succ, List.map_append, ascRun]
  rfl

theorem ascRun_length (k : Nat) : (ascRun k).length = k := by
  rw [ascRun, List.length_map, List.length_range]

theorem foldl_omax_ascRun (k : Nat) :
    (ascRun k).foldl omax Option.none =
      if k = 0 then Option.none else some (k : Int) := by
  induction k with
  | zero => rfl
  | succ k ih =>
    rw [ascRun_succ, List.foldl_append, ih]
    rcases Nat.eq_zero_or_pos k with h | h
    · subst h
      simp [omax]
    · rw [if_neg (show k ≠ 0 by omega), if_neg (show k + 1 ≠ 0 by omega)]
      simp only [List.foldl_cons, List.foldl_nil, omax]
      rw [max_eq_right (show (k : Int) ≤ (k : Int) + 1 by omega)]
      norm_cast

theorem maxDraftVersion_versionsOf (st : St) (sid : Int) :
    maxDraftVersion st.drafts sid = (versionsOf st sid).foldl omax Option.none := rfl

theorem versionsOf_create (st : St) (s0 sid : Int) (t0 : String) :
    versionsOf (create_draft st s0 t0).1 sid =
      versionsOf st sid ++
        (if s0 = sid then [(maxDraftVersion st.drafts s0).getD 0 + 1] else []) := by
  by_cases h : s0 = sid <;>
    simp [versionsOf, create_draft, List.filter_append, h]

theorem create_draft_preserves_inv (st : St) (s0 : Int) (t0 : String)
    (hinv : ∀ sid, versionsOf st sid = ascRun (versionsOf st sid).length) :
    ∀ sid, versionsOf (create_draft st s0 t0).1 sid =
      ascRun (versionsOf (create_draft st s0 t0).1 sid).length := by
  intro sid
  rw [versionsOf_create]
  by_cases h : s0 = sid
  · subst h
    rw [if_pos rfl]
    obtain ⟨k, hk⟩ : ∃ k, (versionsOf st s0).length = k := ⟨_, rfl⟩
    have hv : versionsOf st s0 = ascRun k := by rw [hinv s0, hk]
    have hmv : (maxDraftVersion st.drafts s0).getD 0 + 1 = (k : Int) + 1 := by
      rw [maxDraftVersion_versionsOf, hv, foldl_omax_ascRun]
      rcases Nat.eq_zero_or_pos k with h0 | h0
      · rw [if_pos h0, h0]
        rfl
      · rw [if_neg (show k ≠ 0 by omega)]
        rfl
    rw [hmv, hv, ← ascRun_succ, ascRun_length]
  · rw [if_neg h, List.append_nil]
    obtain ⟨k, hk⟩ : ∃ k, (versionsOf st sid).length = k := ⟨_, rfl⟩
    have hv : versionsOf st sid = ascRun k := by rw [hinv sid, hk]
    rw [hv, ascRun_length]

theorem applyCreates_inv :
    ∀ (ops : List (Int × String)) (st : St),
      (∀ sid, versionsOf st sid = ascRun (versionsOf st sid).length) →
      ∀ sid, versionsOf (applyCreates ops st) sid =
        ascRun (versionsOf (applyCreates ops st) sid).length := by
  intro ops
  induction ops with
  | nil =>
    intro st h
    exact h
  | cons op ops ih =>
    intro st h
    exact ih ((create_draft st op.1 op.2).1) (create_draft_preserves_inv st op.1 op.2 h)

theorem applyCreates_count :
    ∀ (ops : List (Int × String)) (st : St) (sid : Int),
      (versionsOf (applyCreates ops st) sid).length =
        (versionsOf st sid).length + ops.countP (fun op => op.1 = sid) := by
  intro ops
  induction ops with
  | nil =>
    intro st sid
    simp [applyCreates]
  | cons op ops ih =>
    intro st sid
    have hstep : (versionsOf (create_draft st op.1 op.2).1 sid).length =
        (versionsOf st sid).length + (if op.1 = sid then 1 else 0) := by
      rw [versionsOf_create]
      by_cases h : op.1 = sid <;> simp [h]
    have hrec := ih ((create_draft st op.1 op.2).1) sid
    have hcons : applyCreates (op :: ops) st =
        applyCreates ops (create_draft st op.1 op.2).1 := rfl
    rw [hcons, hrec, hstep]
    by_cases h : op.1 = sid <;>
      simp [List.countP_cons, h, Nat.add_assoc, Nat.add_comm, Nat.add_left_comm]

end VersionLemmas

section HandlerDraftLemmas

theorem create_fact_drafts (st : St) (did : Int) (d : Payload) :
    (create_fact st did d).1.drafts = st.drafts := rfl

theorem create_check_run_drafts (st : St) (iid did : Int) (ct : String) (p : Bool)
    (fs : List Payload) :
    (create_check_run st iid did ct p fs).drafts = st.drafts := rfl

/-- Every successful handler run only appends to the Draft table: existing
rows are never updated or deleted. -/
theorem handler_drafts_append (md5f : String → String) (ty : TaskType) (st : St)
    (task : TaskRec) (st2 : St) (out : Payload)
    (h : TASK_HANDLERS md5f ty st task = Except.ok (st2, out)) :
    ∃ tail, st2.drafts = st.drafts ++ tail := by
  cases ty <;> simp only [TASK_HANDLERS] at h
  case PLAN_SCENE =>
    simp only [handle_plan_scene] at h
    cases hls : lookupScene st (getD task.input_jsonb "scene_id" Val.none) with
    | none => simp only [hls] at h; exact Except.noConfusion h
    | some scene =>
      simp only [hls, Except.ok.injEq, Prod.mk.injEq] at h
      obtain ⟨h1, h2⟩ := h
      subst h1
      exact ⟨[], by simp⟩
  case DRAFT_SCENE =>
    simp only [handle_draft_scene] at h
    cases hsid : getD task.input_jsonb "scene_id" Val.none with
    | int i =>
      simp only [hsid] at h
      cases hgs : get_scene st i with
      | none => simp only [hgs] at h; exact Except.noConfusion h
      | some scene =>
        simp only [hgs, Except.ok.injEq, Prod.mk.injEq] at h
        obtain ⟨h1, h2⟩ := h
        subst h1
        exact ⟨_, rfl⟩
    | none => simp only [hsid] at h; exact Except.noConfusion h
    | bool b => simp only [hsid] at h; exact Except.noConfusion h
    | float q => simp only [hsid] at h; exact Except.noConfusion h
    | str sv => simp only [hsid] at h; exact Except.noConfusion h
    | list vs => simp only [hsid] at h; exact Except.noConfusion h
    | obj kvs => simp only [hsid] at h; exact Except.noConfusion h
  case EXTRACT_FACTS =>
    simp only [handle_extract_facts] at h
    cases hld : lookupDraft st (getD task.input_jsonb "draft_id" Val.none) with
    | none => simp only [hld] at h; exact Except.noConfusion h
    | some draft =>
      simp only [hld, Except.ok.injEq, Prod.mk.injEq] at h
      obtain ⟨h1, h2⟩ := h
      subst h1
      exact ⟨[], by simp [extract_facts, create_fact]⟩
  case RUN_CHECKS =>
    simp only [handle_run_checks] at h
    cases hld : lookupDraft st (getD task.input_jsonb "draft_id" Val.none) with
    | none => simp only [hld] at h; exact Except.noConfusion h
    | some draft =>
      cases hls : lookupScene st (getD task.input_jsonb "scene_id" Val.none) with
      | none => simp only [hld, hls] at h; exact Except.noConfusion h
      | some scene =>
        simp only [hld, hls, Except.ok.injEq, Prod.mk.injEq] at h
        obtain ⟨h1, h2⟩ := h
        subst h1
        exact ⟨[], by simp [run_all_checks, create_check_run]⟩
  case REVISE =>
    simp only [handle_revise] at h
    cases hld : lookupDraft st (getD task.input_jsonb "draft_id" Val.none) with
    | none => simp only [hld] at h; exact Except.noConfusion h
    | some draft =>
      simp only [hld] at h
      cases hsid : getD task.input_jsonb "scene_id" Val.none with
      | int i =>
        simp only [hsid, Except.ok.injEq, Prod.mk.injEq] at h
        obtain ⟨h1, h2⟩ := h
        subst h1
        exact ⟨_, rfl⟩
      | none => simp only [hsid] at h; exact Except.noConfusion h
      | bool b => simp only [hsid] at h; exact Except.noConfusion h
      | float q => simp only [hsid] at h; exact Except.noConfusion h
      | str sv => simp only [hsid] at h; exact Except.noConfusion h
      | list vs => simp only [hsid] at h; exact Except.noConfusion h
      | obj kvs => simp only [hsid] at h; exact Except.noConfusion h
  case COMMIT =>
    simp only [handle_commit, Except.ok.injEq, Prod.mk.injEq] at h
    obtain ⟨h1, h2⟩ := h
    subst h1
    exact ⟨[], by simp⟩

/-- Every dispatcher run only appends to the Draft table. -/
theorem process_task_drafts_append (md5f : String → String) (st : St) (task_id : Int) :
    ∃ tail, (process_task md5f st task_id).1.drafts = st.drafts ++ tail := by
  show ∃ tail, (process_task_with (TASK_HANDLERS md5f) st task_id).1.drafts = st.drafts ++ tail
  cases hget : get_task st task_id with
  | none =>
    refine ⟨[], ?_⟩
    simp [process_task_with, hget]
  | some task =>
    cases hh : TASK_HANDLERS md5f task.task_type
        (setTask st task_id (fun t => { t with locked := true, status := TaskStatus.running, attempts := t.attempts + 1 }))
        { task with locked := true, status := TaskStatus.running, attempts := task.attempts + 1 } with
    | error e =>
      refine ⟨[], ?_⟩
      rw [process_task_with_error (TASK_HANDLERS md5f) st task_id task e hget hh]
      simp [setTask_drafts]
    | ok pr =>
      obtain ⟨st2, out⟩ := pr
      obtain ⟨tail, ht⟩ := handler_drafts_append md5f task.task_type _ _ _ _ hh
      refine ⟨tail, ?_⟩
      rw [process_task_with_ok (TASK_HANDLERS md5f) st task_id task st2 out hget hh]
      rw [advance_store_drafts, setTask_drafts, ht, setTask_drafts]

end HandlerDraftLemmas

/-- C6: draft versions are assigned as current-maximum-plus-one, so after
any sequence of `create_draft` calls starting from the empty store the
versions of each scene are exactly 1, 2, ..., k with no gaps; `create_draft`
only appends (prior Draft rows, scenes, iterations and tasks are untouched),
and a full dispatcher run also only appends to the Draft table — no
operation updates or deletes an existing Draft row. -/
theorem claim_C6_draft_versions :
    (∀ (ops : List (Int × String)) (scene_id : Int),
      versionsOf (applyCreates ops emptySt) scene_id =
        ascRun (ops.countP (fun op => op.1 = scene_id)))
    ∧ (∀ (st : St) (scene_id : Int) (text : String),
        (create_draft st scene_id text).1.drafts =
          st.drafts ++ [(create_draft st scene_id text).2] ∧
        (create_draft st scene_id text).2.version =
          (maxDraftVersion st.drafts scene_id).getD 0 + 1 ∧
        (create_draft st scene_id text).2.scene_id = scene_id ∧
        (create_draft st scene_id text).1.scenes = st.scenes ∧
        (create_draft st scene_id text).1.iterations = st.iterations ∧
        (create_draft st scene_id text).1.tasks = st.tasks)
    ∧ (∀ (md5f : String → String) (st : St) (task_id : Int),
        ∃ tail, (process_task md5f st task_id).1.drafts = st.drafts ++ tail) := by
  refine ⟨?_, ?_, process_task_drafts_append⟩
  · intro ops scene_id
    have hinv := applyCreates_inv ops emptySt (fun sid => rfl) scene_id
    have hcount := applyCreates_count ops emptySt scene_id
    have hzero : (versionsOf emptySt scene_id).length = 0 := rfl
    rw [hinv, hcount, hzero, Nat.zero_add]
  · intro st scene_id text
    exact ⟨rfl, rfl, rfl, rfl, rfl, rfl⟩

section CheckLemmas

theorem mkCheckResult_passed_iff (ct : String) (fs : List Payload) :
    ((mkCheckResult ct fs).passed = true ↔
      ∀ f ∈ (mkCheckResult ct fs).findings,
        pyEqStr (getD f "severity" Val.none) "error" = false) := by
  simp only [mkCheckResult, Bool.not_eq_true']
  rw [List.any_eq_false]
  simp only [Bool.not_eq_true]

end CheckLemmas

/-- C10: a check run passes exactly when it produced no finding of severity
"error" (warning and info findings never fail a check); `run_all_checks`
always returns exactly the continuity check followed by the style check;
and the RUN_CHECKS handler reports `all_passed` as the conjunction of the
two per-check `passed` flags with `check_count` equal to the number of
check results (2). -/
theorem claim_C10_pass_iff_no_error :
    (∀ (facts constraints previous_facts : List Val),
      ((run_continuity_check facts constraints previous_facts).passed = true ↔
        ∀ f ∈ (run_continuity_check facts constraints previous_facts).findings,
          pyEqStr (getD f "severity" Val.none) "error" = false))
    ∧ (∀ (draft_text : String) (style_bible : Payload),
      ((run_style_check draft_text style_bible).passed = true ↔
        ∀ f ∈ (run_style_check draft_text style_bible).findings,
          pyEqStr (getD f "severity" Val.none) "error" = false))
    ∧ (∀ (draft_text : String) (facts constraints : List Val) (style_bible : Payload)
        (previous_facts : List Val),
        run_all_checks draft_text facts constraints style_bible previous_facts =
          [run_continuity_check facts constraints previous_facts,
           run_style_check draft_text style_bible])
    ∧ (∀ (st : St) (task : TaskRec) (st2 : St) (out : Payload),
        handle_run_checks st task = Except.ok (st2, out) →
        ∃ r1 r2 : CheckResult,
          r1.check_type = "continuity" ∧
          r2.check_type = "style" ∧
          (r1.passed = true ↔
            ∀ f ∈ r1.findings, pyEqStr (getD f "severity" Val.none) "error" = false) ∧
          (r2.passed = true ↔
            ∀ f ∈ r2.findings, pyEqStr (getD f "severity" Val.none) "error" = false) ∧
          pget out "all_passed" = some (Val.bool (r1.passed && r2.passed)) ∧
          pget out "check_count" = some (Val.int 2)) := by
  have hcont : ∀ (facts constraints previous_facts : List Val),
      ((run_continuity_check facts constraints previous_facts).passed = true ↔
        ∀ f ∈ (run_continuity_check facts constraints previous_facts).findings,
          pyEqStr (getD f "severity" Val.none) "error" = false) := by
    intro facts constraints previous_facts
    exact mkCheckResult_passed_iff "continuity" _
  have hstyle : ∀ (draft_text : String) (style_bible : Payload),
      ((run_style_check draft_text style_bible).passed = true ↔
        ∀ f ∈ (run_style_check draft_text style_bible).findings,
          pyEqStr (getD f "severity" Val.none) "error" = false) := by
    intro draft_text style_bible
    exact mkCheckResult_passed_iff "style" _
  refine ⟨hcont, hstyle, fun _ _ _ _ _ => rfl, ?_⟩
  intro st task st2 out h
  simp only [handle_run_checks] at h
  cases hld : lookupDraft st (getD task.input_jsonb "draft_id" Val.none) with
  | none => simp only [hld] at h; exact Except.noConfusion h
  | some draft =>
    cases hls : lookupScene st (getD task.input_jsonb "scene_id" Val.none) with
    | none => simp only [hld, hls] at h; exact Except.noConfusion h
    | some scene =>
      simp only [hld, hls, Except.ok.injEq, Prod.mk.injEq] at h
      obtain ⟨h1, h2⟩ := h
      subst h2
      refine ⟨run_continuity_check (valList (getD task.input_jsonb "facts" (Val.list [])))
          (List.map (fun c => Val.obj [("id", Val.int c.id),
            ("constraint_type", Val.str c.constraint_type),
            ("rule_jsonb", Val.obj c.rule_jsonb), ("severity", Val.str c.severity)])
            (get_constraints st scene.project_id)) [],
        run_style_check draft.text
          (styleBibleContent (st.style_bibles.filter
            (fun b => b.project_id = scene.project_id))),
        rfl, rfl, hcont _ _ _, hstyle _ _, ?_, ?_⟩
      · simp [pget, run_all_checks]
      · simp [pget, run_all_checks]

theorem claim_C10_pass_iff_no_error_witness :
    ∃ (st2 : St) (out : Payload),
      handle_run_checks stDone taskCheckW = Except.ok (st2, out) ∧
      ∃ r1 r2 : CheckResult,
        r1.check_type = "continuity" ∧
        r2.check_type = "style" ∧
        (r1.passed = true ↔
          ∀ f ∈ r1.findings, pyEqStr (getD f "severity" Val.none) "error" = false) ∧
        (r2.passed = true ↔
          ∀ f ∈ r2.findings, pyEqStr (getD f "severity" Val.none) "error" = false) ∧
        pget out "all_passed" = some (Val.bool (r1.passed && r2.passed)) ∧
        pget out "check_count" = some (Val.int 2) := by
  obtain ⟨st2, out, hrun⟩ : ∃ st2 out,
      handle_run_checks stDone taskCheckW = Except.ok (st2, out) := ⟨_, _, rfl⟩
  exact ⟨st2, out, hrun, claim_C10_pass_iff_no_error.2.2.2 stDone taskCheckW st2 out hrun⟩
